import Mathlib

/-!
Verification of `ewfverify.c` (the `ewfverify` command-line tool of libewf)
against its natural-language specification.

The file shallowly embeds the `main` function of `src/ewftools/ewfverify.c`
as a Lean function.  External library calls (`verification_handle_*`,
`log_handle_*`, `libsystem_*`) whose code is not part of the sources are
abstracted by an environment record `Env` that fixes the result each such
call returns in a given execution; `main`'s own control flow — the order of
calls, the `goto on_error` / `goto on_abort` paths, the final status
printing and exit codes — is translated statement by statement.  An event
trace records the externally visible calls and messages whose presence and
order the specification talks about.

The verification engine itself (`verification_handle.c`) is not among the
sources, so the chunk-verification driver is modelled from the spec where a
claim needs it (see `driveChunks` below).
-/

namespace Ewfverify

/-- `EXIT_SUCCESS` of stdlib.h. -/
def EXIT_SUCCESS : Nat := 0

/-- `EXIT_FAILURE` of stdlib.h. -/
def EXIT_FAILURE : Nat := 1

/-- `SSIZE_MAX` on an LP64 platform, as used by the
`process_buffer_size > (size_t) SSIZE_MAX` comparison in `main`. -/
def SSIZE_MAX : Nat := 2 ^ 63 - 1

/-- One parsed command-line option, as produced by the
`libsystem_getopt` loop over the option string `"A:d:f:hl:p:qvVw"`.
`optInvalid` is the `'?'`/`default` case of the `switch`. -/
inductive CmdOption where
  | optInvalid
  | optA (arg : String)
  | optD (arg : String)
  | optF (arg : String)
  | optH
  | optL (arg : String)
  | optP (arg : String)
  | optQ
  | optVerbose
  | optVersion
  | optW
  deriving DecidableEq, Repr

/-- Externally visible events of one execution of `main`: calls into the
verification handle, warnings and the usage text.  Events carry only the
arguments the specification talks about. -/
inductive Event where
  | printUsage
  | warnInvalidArgument
  | warnUnsupportedDigestType
  | errMissingFiles
  | initHandle (md5 sha1 sha256 : Bool)
  | openInput
  | setHeaderCodepage
  | warnCodepage
  | setFormat
  | warnFormat
  | setZeroChunkOnError (v : Bool)
  | setProcessBufferSize
  | warnBufferSize
  | verifySingleFiles
  | verifyInput
  | closeHandle
  | freeHandle
  deriving DecidableEq, Repr

/-- The local variables of `main` that are written by the option loop. -/
structure OptState where
  option_header_codepage : Option String := none
  option_format : Option String := none
  log_filename : Option String := none
  option_process_buffer_size : Option String := none
  calculate_md5 : Bool := true
  calculate_sha1 : Bool := false
  calculate_sha256 : Bool := false
  print_status_information : Bool := true
  zero_chunk_on_error : Bool := false
  verbose : Bool := false
  deriving DecidableEq, Repr

/-- Result of the option-parsing `while` loop: either it runs to the end
of `argv` (`completed`), or `main` returns from inside the loop
(`earlyExit`): `EXIT_SUCCESS` for `-h`/`-V`, `EXIT_FAILURE` via
`goto on_error` for an invalid option. -/
inductive ParseResult where
  | completed (st : OptState) (tr : List Event)
  | earlyExit (code : Nat) (tr : List Event)
  deriving DecidableEq, Repr

/-- `libcstring_system_string_compare( s, lit, n ) == 0` where `n` is the
length of the literal `lit` (`strncmp`/`wcsncmp` with the literal's
length): the comparison stops after `n` characters or at a terminating
NUL, so it succeeds exactly when `lit` is a prefix of `s`. -/
def strncmpEq (lit s : String) : Bool := lit.toList.isPrefixOf s.toList

/-- The `while( ( option = libsystem_getopt( ... ) ) != -1 )` loop of
`main`.  The `-d` case uses `libcstring_system_string_compare` with the
length of the literal, i.e. a prefix comparison: `"sha1"` is compared on
its first 4 characters and `"sha256"` on its first 6. -/
def parseOptions : List CmdOption → OptState → List Event → ParseResult
  | [], st, tr => ParseResult.completed st tr
  | o :: rest, st, tr =>
    match o with
    | CmdOption.optInvalid =>
        ParseResult.earlyExit EXIT_FAILURE
          (tr ++ [Event.warnInvalidArgument, Event.printUsage])
    | CmdOption.optA s =>
        parseOptions rest { st with option_header_codepage := some s } tr
    | CmdOption.optD s =>
        if strncmpEq "sha1" s then
          parseOptions rest { st with calculate_sha1 := true } tr
        else if strncmpEq "sha256" s then
          parseOptions rest { st with calculate_sha256 := true } tr
        else
          parseOptions rest st (tr ++ [Event.warnUnsupportedDigestType])
    | CmdOption.optF s =>
        parseOptions rest { st with option_format := some s } tr
    | CmdOption.optH =>
        ParseResult.earlyExit EXIT_SUCCESS (tr ++ [Event.printUsage])
    | CmdOption.optL s =>
        parseOptions rest { st with log_filename := some s } tr
    | CmdOption.optP s =>
        parseOptions rest { st with option_process_buffer_size := some s } tr
    | CmdOption.optQ =>
        parseOptions rest { st with print_status_information := false } tr
    | CmdOption.optVerbose =>
        parseOptions rest { st with verbose := true } tr
    | CmdOption.optVersion =>
        ParseResult.earlyExit EXIT_SUCCESS tr
    | CmdOption.optW =>
        parseOptions rest { st with zero_chunk_on_error := true } tr

/-- Did some `-d` option request SHA-1, the way the code tests it
(prefix comparison on 4 characters)? -/
def sha1Requested : List CmdOption → Bool
  | [] => false
  | CmdOption.optD s :: rest => strncmpEq "sha1" s || sha1Requested rest
  | _ :: rest => sha1Requested rest

/-- Did some `-d` option request SHA-256, the way the code tests it
(reached only when the SHA-1 prefix test failed)? -/
def sha256Requested : List CmdOption → Bool
  | [] => false
  | CmdOption.optD s :: rest =>
      (!strncmpEq "sha1" s && strncmpEq "sha256" s) || sha256Requested rest
  | _ :: rest => sha256Requested rest

/-- Was `-w` (zero sectors on checksum error) given? -/
def zeroChunkRequested : List CmdOption → Bool
  | [] => false
  | CmdOption.optW :: _ => true
  | _ :: rest => zeroChunkRequested rest

/-- Was `-p` (process buffer size) given? -/
def pbsGiven : List CmdOption → Bool
  | [] => false
  | CmdOption.optP _ :: _ => true
  | _ :: rest => pbsGiven rest

/-- Was some `-d` option given? -/
def dGiven : List CmdOption → Bool
  | [] => false
  | CmdOption.optD _ :: _ => true
  | _ :: rest => dGiven rest

/-- Number of `-d` options whose argument matches neither digest type,
each of which prints the `Unsupported digest type.` warning. -/
def badDigestCount : List CmdOption → Nat
  | [] => 0
  | CmdOption.optD s :: rest =>
      (if strncmpEq "sha1" s || strncmpEq "sha256" s then 0 else 1)
        + badDigestCount rest
  | _ :: rest => badDigestCount rest

/-- Result convention of the `verification_handle_set_*` functions as
`main` distinguishes it: `err` is `-1` (hard error, `goto on_error`),
`unsupported` is `0` (warn and continue), `ok` is `1`. -/
inductive SetResult where
  | err
  | unsupported
  | ok
  deriving DecidableEq, Repr

/-- The values of the `status` variable of `main`: `initial` is its
`int status = 0` initialisation, the other two are
`PROCESS_STATUS_FAILED` and `PROCESS_STATUS_COMPLETED`. -/
inductive ProcStatus where
  | initial
  | failed
  | completed
  deriving DecidableEq, Repr

/-- The final status line `main` prints on stdout, when it reaches the
final checks at all (`goto on_error` paths print none). -/
inductive FinalMsg where
  | aborted
  | failure
  | success
  deriving DecidableEq, Repr

/-- Environment of one execution: the outcome of every external call
`main` makes, and the two points at which the asynchronous abort flag
`ewfverify_abort` is read.  `abort_after_open` is its value at the
`if( ewfverify_abort != 0 )` check right after
`verification_handle_open_input` returns; `abort_late` records whether
the signal handler additionally fired between that check and the final
`if( ewfverify_abort != 0 )` check (the flag is only ever raised, so its
final value is `abort_after_open || abort_late`). -/
structure Env where
  init_ok : Bool
  number_of_filenames : Nat
  handle_init_ok : Bool
  signal_attach_ok : Bool
  open_ok : Bool
  abort_after_open : Bool
  abort_late : Bool
  codepage_result : SetResult
  format_result : SetResult
  set_zero_ok : Bool
  pbs_result : SetResult
  pbs_initial : Nat
  pbs_after_set : Nat
  log_init_ok : Bool
  log_open_ok : Bool
  input_format_files : Bool
  verify_ok : Bool
  log_close_ok : Bool
  log_free_ok : Bool
  signal_detach_ok : Bool
  handle_close_ok : Bool
  handle_free_ok : Bool
  deriving DecidableEq, Repr

/-- Observable result of one execution of `main`: the returned exit
code, the final status line (if one was printed), the value of the
`status` variable at return, the handle's `process_buffer_size` field,
and the trace of events. -/
structure MainResult where
  exitCode : Nat
  finalMessage : Option FinalMsg
  status : ProcStatus
  pbsFinal : Nat
  trace : List Event
  deriving DecidableEq, Repr

/-- The `on_error` label: prints the error backtrace, closes and frees a
non-NULL log handle and verification handle, and returns `EXIT_FAILURE`.
`handleExists` says whether `ewfverify_verification_handle` is non-NULL
at that point.  Each phase's `trace` holds only the events from that
phase on; callers prepend their own events. -/
def onError (handleExists : Bool) (status : ProcStatus) (pbs : Nat) : MainResult :=
  { exitCode := EXIT_FAILURE
    finalMessage := none
    status := status
    pbsFinal := pbs
    trace := if handleExists then [Event.closeHandle, Event.freeHandle] else [] }

/-- The tail of `main` from the `on_abort` label: detach the signal
handler (failure only warns), close the verification handle (failure:
`goto on_error` with the handle still non-NULL, so `on_error` closes it
again and frees it), free it (failure: `goto on_error`;
`verification_handle_free` NULLs the pointer), then print
`ABORTED` / `FAILURE` / `SUCCESS` and return. -/
def mainFinish (env : Env) (status : ProcStatus) (pbs : Nat) : MainResult :=
  if env.handle_close_ok = false then
    let r := onError true status pbs
    { r with trace := Event.closeHandle :: r.trace }
  else if env.handle_free_ok = false then
    let r := onError false status pbs
    { r with trace := Event.closeHandle :: Event.freeHandle :: r.trace }
  else if env.abort_after_open || env.abort_late then
    { exitCode := EXIT_FAILURE, finalMessage := some FinalMsg.aborted
      status := status, pbsFinal := pbs
      trace := [Event.closeHandle, Event.freeHandle] }
  else if status ≠ ProcStatus.completed then
    { exitCode := EXIT_FAILURE, finalMessage := some FinalMsg.failure
      status := status, pbsFinal := pbs
      trace := [Event.closeHandle, Event.freeHandle] }
  else
    { exitCode := EXIT_SUCCESS, finalMessage := some FinalMsg.success
      status := status, pbsFinal := pbs
      trace := [Event.closeHandle, Event.freeHandle] }

/-- The verification stage of `main`: dispatch on
`input_format == VERIFICATION_HANDLE_INPUT_FORMAT_FILES`, set `status`
from the driver's result (a result other than 1 only warns here), then
close and free the log handle when one was opened (failures there:
`goto on_error`), and fall through to `on_abort`. -/
def mainVerify (st : OptState) (env : Env) (pbs : Nat) : MainResult :=
  let status := if env.verify_ok then ProcStatus.completed else ProcStatus.failed
  let r :=
    if st.log_filename.isSome then
      if env.log_close_ok = false then
        onError true status pbs
      else if env.log_free_ok = false then
        onError true status pbs
      else
        mainFinish env status pbs
    else
      mainFinish env status pbs
  { r with trace :=
      (if env.input_format_files then Event.verifySingleFiles else Event.verifyInput)
        :: r.trace }

/-- The `log_filename` block of `main`: create and open the log handle;
either failure is `goto on_error`. -/
def mainLog (st : OptState) (env : Env) (pbs : Nat) : MainResult :=
  if st.log_filename.isSome then
    if env.log_init_ok = false then
      onError true ProcStatus.initial pbs
    else if env.log_open_ok = false then
      onError true ProcStatus.initial pbs
    else
      mainVerify st env pbs
  else
    mainVerify st env pbs

/-- The `option_process_buffer_size` block of `main`: when `-p` was
given, call `verification_handle_set_process_buffer_size`; `-1` is
`goto on_error`; result `0` or a resulting `process_buffer_size` above
`SSIZE_MAX` resets the field to `0`, warns, and continues. -/
def mainPbs (st : OptState) (env : Env) : MainResult :=
  match st.option_process_buffer_size with
  | some _ =>
    let r :=
      match env.pbs_result with
      | SetResult.err => onError true ProcStatus.initial env.pbs_after_set
      | r2 =>
        if r2 = SetResult.unsupported || env.pbs_after_set > SSIZE_MAX then
          let r3 := mainLog st env 0
          { r3 with trace := Event.warnBufferSize :: r3.trace }
        else
          mainLog st env env.pbs_after_set
    { r with trace := Event.setProcessBufferSize :: r.trace }
  | none => mainLog st env env.pbs_initial

/-- The `verification_handle_set_zero_chunk_on_error` call of `main`: a
result other than 1 is `goto on_error`. -/
def mainZero (st : OptState) (env : Env) : MainResult :=
  let r :=
    if env.set_zero_ok = false then
      onError true ProcStatus.initial env.pbs_initial
    else
      mainPbs st env
  { r with trace := Event.setZeroChunkOnError st.zero_chunk_on_error :: r.trace }

/-- The `option_format` block of `main`: `-1` is `goto on_error`, `0`
warns `Unsupported input format defaulting to: raw.` and continues. -/
def mainFormat (st : OptState) (env : Env) : MainResult :=
  match st.option_format with
  | some _ =>
    let r :=
      match env.format_result with
      | SetResult.err => onError true ProcStatus.initial env.pbs_initial
      | SetResult.unsupported =>
          let r2 := mainZero st env
          { r2 with trace := Event.warnFormat :: r2.trace }
      | SetResult.ok => mainZero st env
    { r with trace := Event.setFormat :: r.trace }
  | none => mainZero st env

/-- The `option_header_codepage` block of `main`: `-1` is
`goto on_error`, `0` warns `Unsupported header codepage defaulting to:
ascii.` and continues. -/
def mainCodepage (st : OptState) (env : Env) : MainResult :=
  match st.option_header_codepage with
  | some _ =>
    let r :=
      match env.codepage_result with
      | SetResult.err => onError true ProcStatus.initial env.pbs_initial
      | SetResult.unsupported =>
          let r2 := mainFormat st env
          { r2 with trace := Event.warnCodepage :: r2.trace }
      | SetResult.ok => mainFormat st env
    { r with trace := Event.setHeaderCodepage :: r.trace }
  | none => mainFormat st env

/-- Handle creation and opening: `verification_handle_initialize`
(failure: `goto on_error`, handle still NULL), `libsystem_signal_attach`
(failure only warns), `verification_handle_open_input`, the
`ewfverify_abort` check (set: `goto on_abort`), and the open-result
check (not 1: `goto on_error`). -/
def mainOpen (st : OptState) (env : Env) : MainResult :=
  let r :=
    if env.handle_init_ok = false then
      onError false ProcStatus.initial env.pbs_initial
    else
      let r2 :=
        if env.abort_after_open then
          mainFinish env ProcStatus.initial env.pbs_initial
        else if env.open_ok = false then
          onError true ProcStatus.initial env.pbs_initial
        else
          mainCodepage st env
      { r2 with trace := Event.openInput :: r2.trace }
  { r with trace :=
      Event.initHandle st.calculate_md5 st.calculate_sha1 st.calculate_sha256
        :: r.trace }

/-- The whole of `main` (with `LIBSYSTEM_HAVE_GLOB` defined, so
`argv_filenames = &( argv[ optind ] )` and there is no glob object):
`libsystem_initialize`, the option loop, the `if( optind == argc )`
missing-files check, then `mainOpen` onwards.  The trace of the whole
run is the option loop's trace followed by `mainOpen`'s. -/
def runMain (opts : List CmdOption) (env : Env) : MainResult :=
  if env.init_ok = false then
    { exitCode := EXIT_FAILURE, finalMessage := none
      status := ProcStatus.initial, pbsFinal := env.pbs_initial, trace := [] }
  else
    match parseOptions opts {} [] with
    | ParseResult.earlyExit code tr =>
        { exitCode := code, finalMessage := none
          status := ProcStatus.initial, pbsFinal := env.pbs_initial, trace := tr }
    | ParseResult.completed st tr =>
        if env.number_of_filenames = 0 then
          { exitCode := EXIT_FAILURE, finalMessage := none
            status := ProcStatus.initial, pbsFinal := env.pbs_initial
            trace := tr ++ [Event.errMissingFiles, Event.printUsage] }
        else
          let r := mainOpen st env
          { r with trace := tr ++ r.trace }

/-- State the signal handler reads and writes: the global
`ewfverify_abort` flag and whether the global
`ewfverify_verification_handle` pointer is non-NULL. -/
structure HandlerState where
  ewfverify_abort : Bool
  handle_exists : Bool
  deriving DecidableEq, Repr

/-- Observable effect of one invocation of the signal handler. -/
structure HandlerResult where
  state : HandlerState
  signalAbortCalled : Bool
  stdinClosed : Bool
  deriving DecidableEq, Repr

/-- `ewfverify_signal_handler`: sets `ewfverify_abort = 1`,
calls `verification_handle_signal_abort` on the global handle when it is
non-NULL, then force-closes stdin. -/
def ewfverify_signal_handler (s : HandlerState) : HandlerResult :=
  { state := { s with ewfverify_abort := true }
    signalAbortCalled := s.handle_exists
    stdinClosed := true }

/-- Modelled from the spec: the Chunk Reader's per-chunk outcome.
`verification_handle.c` (Chunk Reader, Verification Driver) is not among
the sources, so this follows spec sections 4.2 and 4.4: a chunk either
validates (`valid`, with its plaintext bytes), fails checksum validation
or decompression (`corrupt`, carrying the bytes whose length is the
chunk's nominal plaintext size), or suffers a short read
(`truncated`). -/
inductive ChunkOutcome where
  | valid (data : List Nat)
  | corrupt (data : List Nat)
  | truncated
  deriving DecidableEq, Repr

/-- Modelled from the spec: terminal state of the Verification Driver
for a run that is not cancelled (`Completed` or `Failed`). -/
inductive RunStatus where
  | completed
  | failed
  deriving DecidableEq, Repr

/-- Modelled from the spec: outcome of one run of the Verification
Driver — the terminal state, the ordered per-chunk error list (chunk
indices), and the byte stream fed to the Digest Pipeline, over which
the black-box digests are computed. -/
structure DriveResult where
  status : RunStatus
  errors : List Nat
  stream : List Nat
  deriving DecidableEq, Repr

/-- Modelled from the spec: the Verification Driver loop of section 4.4
(`verification_handle.c` is not among the sources).  It walks the chunks
in increasing logical-index order; a valid chunk's plaintext is fed to
the Digest Pipeline; a corrupt chunk is recorded in the error list and,
when the zero-chunk-on-error policy is enabled, zero bytes of the
chunk's nominal plaintext size are fed instead, keeping the stream
length-correct; with the policy disabled the error is still recorded and
the run continues; a truncated chunk is terminal: the run ends `failed`
with the errors collected so far and no further stream bytes. -/
def driveChunks (zeroFill : Bool) : Nat → List ChunkOutcome → DriveResult
  | _, [] => { status := RunStatus.completed, errors := [], stream := [] }
  | idx, ChunkOutcome.valid d :: rest =>
      let r := driveChunks zeroFill (idx + 1) rest
      { r with stream := d ++ r.stream }
  | idx, ChunkOutcome.corrupt d :: rest =>
      let r := driveChunks zeroFill (idx + 1) rest
      { status := r.status, errors := idx :: r.errors
        stream := (if zeroFill then List.replicate d.length 0 else []) ++ r.stream }
  | _, ChunkOutcome.truncated :: _ =>
      { status := RunStatus.failed, errors := [], stream := [] }

/-- Modelled from the spec: the reference stream of the zero-fill
property — the concatenated plaintext with every corrupt chunk's bytes
replaced by zeros of the same length. -/
def zeroSubStream : List ChunkOutcome → List Nat
  | [] => []
  | ChunkOutcome.valid d :: rest => d ++ zeroSubStream rest
  | ChunkOutcome.corrupt d :: rest =>
      List.replicate d.length 0 ++ zeroSubStream rest
  | ChunkOutcome.truncated :: rest => zeroSubStream rest

/-- Number of corrupt chunks in an evidence set. -/
def corruptCount : List ChunkOutcome → Nat
  | [] => 0
  | ChunkOutcome.corrupt _ :: rest => 1 + corruptCount rest
  | _ :: rest => corruptCount rest

/-- Logical index of the first corrupt chunk, counting from `base`. -/
def firstCorruptIndex (base : Nat) : List ChunkOutcome → Nat
  | [] => base
  | ChunkOutcome.corrupt _ :: _ => base
  | _ :: rest => firstCorruptIndex (base + 1) rest

/-- Is an event one of the two verification-driver invocations? -/
def isVerifyEvent : Event → Bool
  | Event.verifyInput => true
  | Event.verifySingleFiles => true
  | _ => false

/-- The driver `main` dispatches to, by the handle's input format. -/
def verifyEventOf (env : Env) : Event :=
  if env.input_format_files then Event.verifySingleFiles else Event.verifyInput

/-- The header-codepage stage does not `goto on_error`. -/
def CpOk (st : OptState) (env : Env) : Prop :=
  st.option_header_codepage.isSome = true → env.codepage_result ≠ SetResult.err

/-- The format stage does not `goto on_error`. -/
def FmtOk (st : OptState) (env : Env) : Prop :=
  st.option_format.isSome = true → env.format_result ≠ SetResult.err

/-- The process-buffer-size stage does not `goto on_error`. -/
def PbsOk (st : OptState) (env : Env) : Prop :=
  st.option_process_buffer_size.isSome = true → env.pbs_result ≠ SetResult.err

/-- The log-handle stage does not `goto on_error`. -/
def LogOk (st : OptState) (env : Env) : Prop :=
  st.log_filename.isSome = true → env.log_init_ok = true ∧ env.log_open_ok = true

/-- The conditions under which the setter/log stages between
`verification_handle_open_input` and the driver dispatch do not
`goto on_error`. -/
def SettersOk (st : OptState) (env : Env) : Prop :=
  CpOk st env ∧ FmtOk st env ∧ env.set_zero_ok = true ∧
  PbsOk st env ∧ LogOk st env

/-- The conditions under which an execution of `main` reaches the
verification stage: system init, at least one filename, handle creation
and open succeed, no abort observed after the open, and no setter/log
stage fails. -/
def ReachesVerify (st : OptState) (env : Env) : Prop :=
  env.init_ok = true ∧ env.number_of_filenames ≠ 0 ∧
  env.handle_init_ok = true ∧ env.abort_after_open = false ∧
  env.open_ok = true ∧ SettersOk st env

/-- What each final status line implies about the exit code, the final
value of the abort flag and the `status` variable, and that an execution
with no final line (an `on_error` path) exits `EXIT_FAILURE`. -/
def ExitClassified (env : Env) (r : MainResult) : Prop :=
  (r.finalMessage = none → r.exitCode = EXIT_FAILURE) ∧
  (r.finalMessage = some FinalMsg.aborted →
    r.exitCode = EXIT_FAILURE ∧ (env.abort_after_open || env.abort_late) = true) ∧
  (r.finalMessage = some FinalMsg.failure →
    r.exitCode = EXIT_FAILURE ∧ (env.abort_after_open || env.abort_late) = false ∧
      r.status ≠ ProcStatus.completed) ∧
  (r.finalMessage = some FinalMsg.success →
    r.exitCode = EXIT_SUCCESS ∧ (env.abort_after_open || env.abort_late) = false ∧
      r.status = ProcStatus.completed)

/-- An all-succeeding environment, used to instantiate theorems at
concrete executions. -/
def envAllOk : Env :=
  { init_ok := true, number_of_filenames := 1, handle_init_ok := true
    signal_attach_ok := true, open_ok := true, abort_after_open := false
    abort_late := false, codepage_result := SetResult.ok
    format_result := SetResult.ok, set_zero_ok := true
    pbs_result := SetResult.ok, pbs_initial := 0, pbs_after_set := 512
    log_init_ok := true, log_open_ok := true, input_format_files := false
    verify_ok := true, log_close_ok := true, log_free_ok := true
    signal_detach_ok := true, handle_close_ok := true, handle_free_ok := true }

/-! ## Lemmas about the option loop -/

/-- Characterisation of a completed option loop: the flag values and the
trace as functions of the option list. -/
theorem parseOptions_completed_spec (opts : List CmdOption) :
    ∀ (st : OptState) (tr : List Event) (st' : OptState) (tr' : List Event),
    parseOptions opts st tr = ParseResult.completed st' tr' →
    st'.calculate_md5 = st.calculate_md5 ∧
    st'.calculate_sha1 = (st.calculate_sha1 || sha1Requested opts) ∧
    st'.calculate_sha256 = (st.calculate_sha256 || sha256Requested opts) ∧
    st'.zero_chunk_on_error = (st.zero_chunk_on_error || zeroChunkRequested opts) ∧
    st'.option_process_buffer_size.isSome
      = (st.option_process_buffer_size.isSome || pbsGiven opts) ∧
    tr' = tr ++ List.replicate (badDigestCount opts) Event.warnUnsupportedDigestType := by
  induction opts with
  | nil =>
    intro st tr st' tr' h
    simp only [parseOptions, ParseResult.completed.injEq] at h
    obtain ⟨h1, h2⟩ := h
    subst h1; subst h2
    simp [sha1Requested, sha256Requested, zeroChunkRequested, pbsGiven, badDigestCount]
  | cons o rest ih =>
    intro st tr st' tr' h
    cases o with
    | optInvalid => simp [parseOptions] at h
    | optA s =>
      simp only [parseOptions] at h
      simpa [sha1Requested, sha256Requested, zeroChunkRequested, pbsGiven,
        badDigestCount] using ih _ _ _ _ h
    | optD s =>
      simp only [parseOptions] at h
      by_cases h1 : strncmpEq "sha1" s
      · rw [if_pos h1] at h
        simpa [sha1Requested, sha256Requested, zeroChunkRequested, pbsGiven,
          badDigestCount, h1] using ih _ _ _ _ h
      · rw [if_neg h1] at h
        by_cases h2 : strncmpEq "sha256" s
        · rw [if_pos h2] at h
          simpa [sha1Requested, sha256Requested, zeroChunkRequested, pbsGiven,
            badDigestCount, h1, h2] using ih _ _ _ _ h
        · rw [if_neg h2] at h
          have h3 := ih _ _ _ _ h
          simp [sha1Requested, sha256Requested, zeroChunkRequested, pbsGiven,
            badDigestCount, h1, h2] at h3 ⊢
          refine ⟨h3.1, h3.2.1, h3.2.2.1, h3.2.2.2.1, h3.2.2.2.2.1, ?_⟩
          rw [h3.2.2.2.2.2]
          simp [List.replicate_add]
    | optF s =>
      simp only [parseOptions] at h
      simpa [sha1Requested, sha256Requested, zeroChunkRequested, pbsGiven,
        badDigestCount] using ih _ _ _ _ h
    | optH => simp [parseOptions] at h
    | optL s =>
      simp only [parseOptions] at h
      simpa [sha1Requested, sha256Requested, zeroChunkRequested, pbsGiven,
        badDigestCount] using ih _ _ _ _ h
    | optP s =>
      simp only [parseOptions] at h
      simpa [sha1Requested, sha256Requested, zeroChunkRequested, pbsGiven,
        badDigestCount] using ih _ _ _ _ h
    | optQ =>
      simp only [parseOptions] at h
      simpa [sha1Requested, sha256Requested, zeroChunkRequested, pbsGiven,
        badDigestCount] using ih _ _ _ _ h
    | optVerbose =>
      simp only [parseOptions] at h
      simpa [sha1Requested, sha256Requested, zeroChunkRequested, pbsGiven,
        badDigestCount] using ih _ _ _ _ h
    | optVersion => simp [parseOptions] at h
    | optW =>
      simp only [parseOptions] at h
      simpa [sha1Requested, sha256Requested, zeroChunkRequested, pbsGiven,
        badDigestCount] using ih _ _ _ _ h

/-- The trace of an option loop that returned from inside the loop
contains, beyond what it started with, only the invalid-argument
message, the usage text and digest-type warnings. -/
theorem parseOptions_earlyExit_spec (opts : List CmdOption) :
    ∀ (st : OptState) (tr : List Event) (c : Nat) (tr' : List Event),
    parseOptions opts st tr = ParseResult.earlyExit c tr' →
    ∀ e ∈ tr', e ∈ tr ∨ e = Event.warnInvalidArgument ∨ e = Event.printUsage ∨
      e = Event.warnUnsupportedDigestType := by
  induction opts with
  | nil => intro st tr c tr' h; simp [parseOptions] at h
  | cons o rest ih =>
    intro st tr c tr' h
    cases o with
    | optInvalid =>
      simp only [parseOptions, ParseResult.earlyExit.injEq] at h
      obtain ⟨_, h2⟩ := h
      subst h2
      intro e he
      rcases List.mem_append.mp he with h3 | h3
      · exact Or.inl h3
      · simp at h3
        rcases h3 with h3 | h3 <;> simp [h3]
    | optA s => exact fun e he => ih _ _ _ _ (by simpa [parseOptions] using h) e he
    | optD s =>
      simp only [parseOptions] at h
      by_cases h1 : strncmpEq "sha1" s
      · rw [if_pos h1] at h
        exact fun e he => ih _ _ _ _ h e he
      · rw [if_neg h1] at h
        by_cases h2 : strncmpEq "sha256" s
        · rw [if_pos h2] at h
          exact fun e he => ih _ _ _ _ h e he
        · rw [if_neg h2] at h
          intro e he
          rcases ih _ _ _ _ h e he with h3 | h3
          · rcases List.mem_append.mp h3 with h4 | h4
            · exact Or.inl h4
            · simp at h4
              simp [h4]
          · exact Or.inr h3
    | optF s => exact fun e he => ih _ _ _ _ (by simpa [parseOptions] using h) e he
    | optH =>
      simp only [parseOptions, ParseResult.earlyExit.injEq] at h
      obtain ⟨_, h2⟩ := h
      subst h2
      intro e he
      rcases List.mem_append.mp he with h3 | h3
      · exact Or.inl h3
      · simp at h3
        simp [h3]
    | optL s => exact fun e he => ih _ _ _ _ (by simpa [parseOptions] using h) e he
    | optP s => exact fun e he => ih _ _ _ _ (by simpa [parseOptions] using h) e he
    | optQ => exact fun e he => ih _ _ _ _ (by simpa [parseOptions] using h) e he
    | optVerbose => exact fun e he => ih _ _ _ _ (by simpa [parseOptions] using h) e he
    | optVersion =>
      simp only [parseOptions, ParseResult.earlyExit.injEq] at h
      obtain ⟨_, h2⟩ := h
      subst h2
      exact fun e he => Or.inl he
    | optW => exact fun e he => ih _ _ _ _ (by simpa [parseOptions] using h) e he

/-- Every event in the trace of a completed option loop started from the
empty trace is a digest-type warning. -/
theorem parse_trace_only_warn {opts : List CmdOption} {st' : OptState}
    {tr' : List Event}
    (h : parseOptions opts {} [] = ParseResult.completed st' tr') :
    ∀ e ∈ tr', e = Event.warnUnsupportedDigestType := by
  intro e he
  have h2 := (parseOptions_completed_spec opts {} [] st' tr' h).2.2.2.2.2
  rw [h2] at he
  simpa using List.eq_of_mem_replicate (by simpa using he)

/-! ## Lemmas about the phases of main -/

theorem mem_onError_trace {e : Event} {he : Bool} {s : ProcStatus} {p : Nat}
    (h : e ∈ (onError he s p).trace) :
    e = Event.closeHandle ∨ e = Event.freeHandle := by
  cases he <;> simp [onError] at h <;> tauto

theorem mem_mainFinish_trace {env : Env} {s : ProcStatus} {p : Nat} {e : Event}
    (h : e ∈ (mainFinish env s p).trace) :
    e = Event.closeHandle ∨ e = Event.freeHandle := by
  by_cases h1 : env.handle_close_ok = false <;>
    by_cases h2 : env.handle_free_ok = false <;>
    by_cases h3 : (env.abort_after_open || env.abort_late) = true <;>
    by_cases h4 : s = ProcStatus.completed <;>
    simp [mainFinish, onError, h1, h2, h3, h4] at h <;> tauto

theorem verify_not_mem_mainFinish {env : Env} {s : ProcStatus} {p : Nat}
    {e : Event} (he : isVerifyEvent e = true) :
    e ∉ (mainFinish env s p).trace := by
  intro h
  rcases mem_mainFinish_trace h with h1 | h1 <;> subst h1 <;>
    simp [isVerifyEvent] at he

theorem verify_not_mem_onError {he2 : Bool} {s : ProcStatus} {p : Nat}
    {e : Event} (he : isVerifyEvent e = true) :
    e ∉ (onError he2 s p).trace := by
  intro h
  rcases mem_onError_trace h with h1 | h1 <;> subst h1 <;>
    simp [isVerifyEvent] at he

/-! ### Navigation rewrites for the phases -/

theorem mainCodepage_none (st : OptState) (env : Env)
    (h : st.option_header_codepage = none) :
    mainCodepage st env = mainFormat st env := by
  simp [mainCodepage, h]

theorem mainCodepage_ok (st : OptState) (env : Env) {v : String}
    (h : st.option_header_codepage = some v)
    (hr : env.codepage_result = SetResult.ok) :
    mainCodepage st env =
      { mainFormat st env with
        trace := Event.setHeaderCodepage :: (mainFormat st env).trace } := by
  simp [mainCodepage, h, hr]

theorem mainCodepage_unsupported (st : OptState) (env : Env) {v : String}
    (h : st.option_header_codepage = some v)
    (hr : env.codepage_result = SetResult.unsupported) :
    mainCodepage st env =
      { mainFormat st env with
        trace := Event.setHeaderCodepage :: Event.warnCodepage
          :: (mainFormat st env).trace } := by
  simp [mainCodepage, h, hr]

theorem mainCodepage_err (st : OptState) (env : Env) {v : String}
    (h : st.option_header_codepage = some v)
    (hr : env.codepage_result = SetResult.err) :
    mainCodepage st env =
      { exitCode := EXIT_FAILURE, finalMessage := none
        status := ProcStatus.initial, pbsFinal := env.pbs_initial
        trace := [Event.setHeaderCodepage, Event.closeHandle, Event.freeHandle] } := by
  simp [mainCodepage, h, hr, onError]

theorem mainFormat_none (st : OptState) (env : Env)
    (h : st.option_format = none) :
    mainFormat st env = mainZero st env := by
  simp [mainFormat, h]

theorem mainFormat_ok (st : OptState) (env : Env) {v : String}
    (h : st.option_format = some v)
    (hr : env.format_result = SetResult.ok) :
    mainFormat st env =
      { mainZero st env with
        trace := Event.setFormat :: (mainZero st env).trace } := by
  simp [mainFormat, h, hr]

theorem mainFormat_unsupported (st : OptState) (env : Env) {v : String}
    (h : st.option_format = some v)
    (hr : env.format_result = SetResult.unsupported) :
    mainFormat st env =
      { mainZero st env with
        trace := Event.setFormat :: Event.warnFormat :: (mainZero st env).trace } := by
  simp [mainFormat, h, hr]

theorem mainFormat_err (st : OptState) (env : Env) {v : String}
    (h : st.option_format = some v)
    (hr : env.format_result = SetResult.err) :
    mainFormat st env =
      { exitCode := EXIT_FAILURE, finalMessage := none
        status := ProcStatus.initial, pbsFinal := env.pbs_initial
        trace := [Event.setFormat, Event.closeHandle, Event.freeHandle] } := by
  simp [mainFormat, h, hr, onError]

theorem mainZero_ok (st : OptState) (env : Env)
    (h : env.set_zero_ok = true) :
    mainZero st env =
      { mainPbs st env with
        trace := Event.setZeroChunkOnError st.zero_chunk_on_error
          :: (mainPbs st env).trace } := by
  simp [mainZero, h]

theorem mainZero_fail (st : OptState) (env : Env)
    (h : env.set_zero_ok = false) :
    mainZero st env =
      { exitCode := EXIT_FAILURE, finalMessage := none
        status := ProcStatus.initial, pbsFinal := env.pbs_initial
        trace := [Event.setZeroChunkOnError st.zero_chunk_on_error,
          Event.closeHandle, Event.freeHandle] } := by
  simp [mainZero, h, onError]

theorem mainPbs_none (st : OptState) (env : Env)
    (h : st.option_process_buffer_size = none) :
    mainPbs st env = mainLog st env env.pbs_initial := by
  simp [mainPbs, h]

theorem mainPbs_err (st : OptState) (env : Env) {v : String}
    (h : st.option_process_buffer_size = some v)
    (hr : env.pbs_result = SetResult.err) :
    mainPbs st env =
      { exitCode := EXIT_FAILURE, finalMessage := none
        status := ProcStatus.initial, pbsFinal := env.pbs_after_set
        trace := [Event.setProcessBufferSize, Event.closeHandle,
          Event.freeHandle] } := by
  simp [mainPbs, h, hr, onError]

theorem mainPbs_unsupported (st : OptState) (env : Env) {v : String}
    (h : st.option_process_buffer_size = some v)
    (hr : env.pbs_result = SetResult.unsupported) :
    mainPbs st env =
      { mainLog st env 0 with
        trace := Event.setProcessBufferSize :: Event.warnBufferSize
          :: (mainLog st env 0).trace } := by
  simp [mainPbs, h, hr]

theorem mainPbs_okBig (st : OptState) (env : Env) {v : String}
    (h : st.option_process_buffer_size = some v)
    (hr : env.pbs_result = SetResult.ok)
    (hb : env.pbs_after_set > SSIZE_MAX) :
    mainPbs st env =
      { mainLog st env 0 with
        trace := Event.setProcessBufferSize :: Event.warnBufferSize
          :: (mainLog st env 0).trace } := by
  simp [mainPbs, h, hr, hb]

theorem mainPbs_ok (st : OptState) (env : Env) {v : String}
    (h : st.option_process_buffer_size = some v)
    (hr : env.pbs_result = SetResult.ok)
    (hb : ¬env.pbs_after_set > SSIZE_MAX) :
    mainPbs st env =
      { mainLog st env env.pbs_after_set with
        trace := Event.setProcessBufferSize
          :: (mainLog st env env.pbs_after_set).trace } := by
  simp [mainPbs, h, hr, hb]

theorem mainLog_go (st : OptState) (env : Env) (p : Nat)
    (h : LogOk st env) :
    mainLog st env p = mainVerify st env p := by
  unfold LogOk at h
  unfold mainLog
  cases h1 : st.log_filename.isSome
  · simp [h1]
  · obtain ⟨h2, h3⟩ := h h1
    simp [h1, h2, h3]

theorem mainLog_initFail (st : OptState) (env : Env) (p : Nat)
    (h : st.log_filename.isSome = true) (h2 : env.log_init_ok = false) :
    mainLog st env p =
      { exitCode := EXIT_FAILURE, finalMessage := none
        status := ProcStatus.initial, pbsFinal := p
        trace := [Event.closeHandle, Event.freeHandle] } := by
  simp [mainLog, h, h2, onError]

theorem mainLog_openFail (st : OptState) (env : Env) (p : Nat)
    (h : st.log_filename.isSome = true) (h2 : env.log_init_ok = true)
    (h3 : env.log_open_ok = false) :
    mainLog st env p =
      { exitCode := EXIT_FAILURE, finalMessage := none
        status := ProcStatus.initial, pbsFinal := p
        trace := [Event.closeHandle, Event.freeHandle] } := by
  simp [mainLog, h, h2, h3, onError]

theorem mainVerify_go (st : OptState) (env : Env) (p : Nat)
    (h : st.log_filename.isSome = true → env.log_close_ok = true ∧
      env.log_free_ok = true) :
    mainVerify st env p =
      { mainFinish env
          (if env.verify_ok then ProcStatus.completed else ProcStatus.failed) p with
        trace := (if env.input_format_files then Event.verifySingleFiles
            else Event.verifyInput)
          :: (mainFinish env
              (if env.verify_ok then ProcStatus.completed else ProcStatus.failed)
              p).trace } := by
  unfold mainVerify
  cases h1 : st.log_filename.isSome
  · simp [h1]
  · obtain ⟨h2, h3⟩ := h h1
    simp [h1, h2, h3]

theorem mainOpen_initFail (st : OptState) (env : Env)
    (h : env.handle_init_ok = false) :
    mainOpen st env =
      { exitCode := EXIT_FAILURE, finalMessage := none
        status := ProcStatus.initial, pbsFinal := env.pbs_initial
        trace := [Event.initHandle st.calculate_md5 st.calculate_sha1
          st.calculate_sha256] } := by
  simp [mainOpen, h, onError]

theorem mainOpen_abort (st : OptState) (env : Env)
    (h : env.handle_init_ok = true) (h2 : env.abort_after_open = true) :
    mainOpen st env =
      { mainFinish env ProcStatus.initial env.pbs_initial with
        trace := Event.initHandle st.calculate_md5 st.calculate_sha1
            st.calculate_sha256
          :: Event.openInput
          :: (mainFinish env ProcStatus.initial env.pbs_initial).trace } := by
  simp [mainOpen, h, h2]

theorem mainOpen_openFail (st : OptState) (env : Env)
    (h : env.handle_init_ok = true) (h2 : env.abort_after_open = false)
    (h3 : env.open_ok = false) :
    mainOpen st env =
      { exitCode := EXIT_FAILURE, finalMessage := none
        status := ProcStatus.initial, pbsFinal := env.pbs_initial
        trace := [Event.initHandle st.calculate_md5 st.calculate_sha1
          st.calculate_sha256, Event.openInput, Event.closeHandle,
          Event.freeHandle] } := by
  simp [mainOpen, h, h2, h3, onError]

theorem mainOpen_go (st : OptState) (env : Env)
    (h : env.handle_init_ok = true) (h2 : env.abort_after_open = false)
    (h3 : env.open_ok = true) :
    mainOpen st env =
      { mainCodepage st env with
        trace := Event.initHandle st.calculate_md5 st.calculate_sha1
            st.calculate_sha256
          :: Event.openInput :: (mainCodepage st env).trace } := by
  simp [mainOpen, h, h2, h3]

theorem runMain_initFail (opts : List CmdOption) (env : Env)
    (h : env.init_ok = false) :
    runMain opts env =
      { exitCode := EXIT_FAILURE, finalMessage := none
        status := ProcStatus.initial, pbsFinal := env.pbs_initial
        trace := [] } := by
  simp [runMain, h]

theorem runMain_earlyExit (opts : List CmdOption) (env : Env)
    {c : Nat} {tr : List Event}
    (h : env.init_ok = true)
    (hp : parseOptions opts {} [] = ParseResult.earlyExit c tr) :
    runMain opts env =
      { exitCode := c, finalMessage := none
        status := ProcStatus.initial, pbsFinal := env.pbs_initial
        trace := tr } := by
  simp [runMain, h, hp]

theorem runMain_noFiles (opts : List CmdOption) (env : Env)
    {st : OptState} {tr : List Event}
    (h : env.init_ok = true)
    (hp : parseOptions opts {} [] = ParseResult.completed st tr)
    (h2 : env.number_of_filenames = 0) :
    runMain opts env =
      { exitCode := EXIT_FAILURE, finalMessage := none
        status := ProcStatus.initial, pbsFinal := env.pbs_initial
        trace := tr ++ [Event.errMissingFiles, Event.printUsage] } := by
  simp [runMain, h, hp, h2]

theorem runMain_go (opts : List CmdOption) (env : Env)
    {st : OptState} {tr : List Event}
    (h : env.init_ok = true)
    (hp : parseOptions opts {} [] = ParseResult.completed st tr)
    (h2 : env.number_of_filenames ≠ 0) :
    runMain opts env =
      { mainOpen st env with trace := tr ++ (mainOpen st env).trace } := by
  simp [runMain, h, hp, h2]

/-! ### Membership of the driver events in the trace -/

theorem verify_mem_mainVerify (st : OptState) (env : Env) (p : Nat) {e : Event}
    (he : isVerifyEvent e = true) :
    e ∈ (mainVerify st env p).trace ↔ e = verifyEventOf env := by
  unfold mainVerify verifyEventOf
  by_cases h1 : st.log_filename.isSome = true <;>
    by_cases h2 : env.log_close_ok = false <;>
    by_cases h3 : env.log_free_ok = false <;>
    by_cases h4 : env.input_format_files = true <;>
    simp [h1, h2, h3, h4, verify_not_mem_mainFinish he, verify_not_mem_onError he]

theorem verify_mem_mainLog (st : OptState) (env : Env) (p : Nat) {e : Event}
    (he : isVerifyEvent e = true) :
    e ∈ (mainLog st env p).trace ↔ LogOk st env ∧ e = verifyEventOf env := by
  unfold mainLog LogOk
  by_cases h1 : st.log_filename.isSome = true <;>
    by_cases h2 : env.log_init_ok = false <;>
    by_cases h3 : env.log_open_ok = false <;>
    simp [h1, h2, h3, verify_mem_mainVerify st env p he,
      verify_not_mem_onError he] <;> tauto

theorem verify_mem_mainPbs (st : OptState) (env : Env) {e : Event}
    (he : isVerifyEvent e = true) :
    e ∈ (mainPbs st env).trace ↔
      PbsOk st env ∧ LogOk st env ∧ e = verifyEventOf env := by
  have hev : e ≠ Event.setProcessBufferSize := by
    intro h; subst h; simp [isVerifyEvent] at he
  have hwb : e ≠ Event.warnBufferSize := by
    intro h; subst h; simp [isVerifyEvent] at he
  cases hopt : st.option_process_buffer_size with
  | none =>
    rw [mainPbs_none st env hopt, verify_mem_mainLog st env env.pbs_initial he]
    simp [PbsOk, hopt]
  | some v =>
    cases hres : env.pbs_result with
    | err =>
      rw [mainPbs_err st env hopt hres]
      constructor
      · intro h
        simp at h
        rcases h with h | h | h <;> subst h <;> simp [isVerifyEvent] at he
      · intro h
        exact absurd (h.1 (by simp [hopt])) (by simp [hres])
    | unsupported =>
      rw [mainPbs_unsupported st env hopt hres]
      simp only [List.mem_cons]
      rw [verify_mem_mainLog st env 0 he]
      simp [PbsOk, hopt, hres, hev, hwb]
    | ok =>
      by_cases hbig : env.pbs_after_set > SSIZE_MAX
      · rw [mainPbs_okBig st env hopt hres hbig]
        simp only [List.mem_cons]
        rw [verify_mem_mainLog st env 0 he]
        simp [PbsOk, hopt, hres, hev, hwb]
      · rw [mainPbs_ok st env hopt hres hbig]
        simp only [List.mem_cons]
        rw [verify_mem_mainLog st env env.pbs_after_set he]
        simp [PbsOk, hopt, hres, hev]

theorem verify_mem_mainZero (st : OptState) (env : Env) {e : Event}
    (he : isVerifyEvent e = true) :
    e ∈ (mainZero st env).trace ↔
      env.set_zero_ok = true ∧ PbsOk st env ∧ LogOk st env ∧
        e = verifyEventOf env := by
  have hev : ∀ b, e ≠ Event.setZeroChunkOnError b := by
    intro b h; subst h; simp [isVerifyEvent] at he
  cases h1 : env.set_zero_ok
  · rw [mainZero_fail st env h1]
    constructor
    · intro h
      simp at h
      rcases h with h | h | h
      · exact absurd h (hev _)
      · subst h; simp [isVerifyEvent] at he
      · subst h; simp [isVerifyEvent] at he
    · intro h
      simp at h
  · rw [mainZero_ok st env h1]
    simp only [List.mem_cons]
    rw [verify_mem_mainPbs st env he]
    simp [hev, h1]

theorem verify_mem_mainFormat (st : OptState) (env : Env) {e : Event}
    (he : isVerifyEvent e = true) :
    e ∈ (mainFormat st env).trace ↔
      FmtOk st env ∧ env.set_zero_ok = true ∧ PbsOk st env ∧ LogOk st env ∧
        e = verifyEventOf env := by
  have hev1 : e ≠ Event.setFormat := by
    intro h; subst h; simp [isVerifyEvent] at he
  have hev2 : e ≠ Event.warnFormat := by
    intro h; subst h; simp [isVerifyEvent] at he
  cases hopt : st.option_format with
  | none =>
    rw [mainFormat_none st env hopt, verify_mem_mainZero st env he]
    simp [FmtOk, hopt]
  | some v =>
    cases hres : env.format_result with
    | err =>
      rw [mainFormat_err st env hopt hres]
      constructor
      · intro h
        simp at h
        rcases h with h | h | h <;> subst h <;> simp [isVerifyEvent] at he
      · intro h
        exact absurd (h.1 (by simp [hopt])) (by simp [hres])
    | unsupported =>
      rw [mainFormat_unsupported st env hopt hres]
      simp only [List.mem_cons]
      rw [verify_mem_mainZero st env he]
      simp [FmtOk, hopt, hres, hev1, hev2]
    | ok =>
      rw [mainFormat_ok st env hopt hres]
      simp only [List.mem_cons]
      rw [verify_mem_mainZero st env he]
      simp [FmtOk, hopt, hres, hev1]

theorem verify_mem_mainCodepage (st : OptState) (env : Env) {e : Event}
    (he : isVerifyEvent e = true) :
    e ∈ (mainCodepage st env).trace ↔
      SettersOk st env ∧ e = verifyEventOf env := by
  have hev1 : e ≠ Event.setHeaderCodepage := by
    intro h; subst h; simp [isVerifyEvent] at he
  have hev2 : e ≠ Event.warnCodepage := by
    intro h; subst h; simp [isVerifyEvent] at he
  cases hopt : st.option_header_codepage with
  | none =>
    rw [mainCodepage_none st env hopt, verify_mem_mainFormat st env he]
    simp [SettersOk, CpOk, hopt, and_assoc]
  | some v =>
    cases hres : env.codepage_result with
    | err =>
      rw [mainCodepage_err st env hopt hres]
      constructor
      · intro h
        simp at h
        rcases h with h | h | h <;> subst h <;> simp [isVerifyEvent] at he
      · intro h
        exact absurd (h.1.1 (by simp [hopt])) (by simp [hres])
    | unsupported =>
      rw [mainCodepage_unsupported st env hopt hres]
      simp only [List.mem_cons]
      rw [verify_mem_mainFormat st env he]
      simp [SettersOk, CpOk, hopt, hres, hev1, hev2, and_assoc]
    | ok =>
      rw [mainCodepage_ok st env hopt hres]
      simp only [List.mem_cons]
      rw [verify_mem_mainFormat st env he]
      simp [SettersOk, CpOk, hopt, hres, hev1, and_assoc]

theorem verify_mem_mainOpen (st : OptState) (env : Env) {e : Event}
    (he : isVerifyEvent e = true) :
    e ∈ (mainOpen st env).trace ↔
      env.handle_init_ok = true ∧ env.abort_after_open = false ∧
        env.open_ok = true ∧ SettersOk st env ∧ e = verifyEventOf env := by
  have hev1 : ∀ a b c, e ≠ Event.initHandle a b c := by
    intro a b c h; subst h; simp [isVerifyEvent] at he
  have hev2 : e ≠ Event.openInput := by
    intro h; subst h; simp [isVerifyEvent] at he
  cases h1 : env.handle_init_ok
  · rw [mainOpen_initFail st env h1]
    simp [hev1, h1]
  · cases h2 : env.abort_after_open
    · cases h3 : env.open_ok
      · rw [mainOpen_openFail st env h1 h2 h3]
        constructor
        · intro h
          simp at h
          rcases h with h | h | h | h <;> subst h <;> simp [isVerifyEvent] at he
        · intro h
          simp at h
      · rw [mainOpen_go st env h1 h2 h3]
        simp only [List.mem_cons]
        rw [verify_mem_mainCodepage st env he]
        simp [hev1, hev2, h1, h2, h3]
    · rw [mainOpen_abort st env h1 h2]
      simp only [List.mem_cons]
      simp [hev1, hev2, h2, verify_not_mem_mainFinish he]

theorem verify_mem_runMain (opts : List CmdOption) (env : Env)
    {st : OptState} {tr₀ : List Event}
    (hp : parseOptions opts {} [] = ParseResult.completed st tr₀)
    (e : Event) (he : isVerifyEvent e = true) :
    e ∈ (runMain opts env).trace ↔
      env.init_ok = true ∧ env.number_of_filenames ≠ 0 ∧
        env.handle_init_ok = true ∧ env.abort_after_open = false ∧
        env.open_ok = true ∧ SettersOk st env ∧ e = verifyEventOf env := by
  have htr : e ∉ tr₀ := by
    intro h
    have h2 := parse_trace_only_warn hp e h
    subst h2; simp [isVerifyEvent] at he
  cases h0 : env.init_ok
  · rw [runMain_initFail opts env h0]
    simp [h0]
  · by_cases h1 : env.number_of_filenames = 0
    · rw [runMain_noFiles opts env h0 hp h1]
      have hev3 : e ≠ Event.errMissingFiles := by
        intro h; subst h; simp [isVerifyEvent] at he
      have hev4 : e ≠ Event.printUsage := by
        intro h; subst h; simp [isVerifyEvent] at he
      simp [htr, hev3, hev4, h1]
    · rw [runMain_go opts env h0 hp h1]
      simp only [List.mem_append]
      rw [verify_mem_mainOpen st env he]
      simp [htr, h0, h1]

/-! ### Classification of exit codes by the final status line -/

theorem exitClassified_withTrace {env : Env} {r : MainResult} {t : List Event}
    (h : ExitClassified env r) : ExitClassified env { r with trace := t } := h

theorem exitClassified_of_none {env : Env} {r : MainResult}
    (h1 : r.finalMessage = none) (h2 : r.exitCode = EXIT_FAILURE) :
    ExitClassified env r := by
  refine ⟨fun _ => h2, ?_, ?_, ?_⟩ <;> intro h <;> rw [h1] at h <;>
    exact Option.noConfusion h

theorem exitClassified_onError (env : Env) (he : Bool) (s : ProcStatus)
    (p : Nat) : ExitClassified env (onError he s p) :=
  exitClassified_of_none rfl rfl

theorem exitClassified_mainFinish (env : Env) (s : ProcStatus) (p : Nat) :
    ExitClassified env (mainFinish env s p) := by
  unfold mainFinish
  split
  · exact exitClassified_withTrace (exitClassified_onError env true s p)
  · split
    · exact exitClassified_withTrace (exitClassified_onError env false s p)
    · split
      · next h3 =>
        refine ⟨?_, ?_, ?_, ?_⟩ <;> intro h <;> simp at h <;> simp [h3]
      · next h3 =>
        simp only [Bool.not_eq_true] at h3
        split
        · next h4 =>
          refine ⟨?_, ?_, ?_, ?_⟩ <;> intro h <;> simp at h <;> simp [h3, h4]
        · next h4 =>
          simp only [not_not] at h4
          refine ⟨?_, ?_, ?_, ?_⟩ <;> intro h <;> simp at h <;> simp [h3, h4]

theorem exitClassified_mainVerify (st : OptState) (env : Env) (p : Nat) :
    ExitClassified env (mainVerify st env p) := by
  unfold mainVerify
  apply exitClassified_withTrace
  split
  · split
    · apply exitClassified_onError
    · split
      · apply exitClassified_onError
      · apply exitClassified_mainFinish
  · apply exitClassified_mainFinish

theorem exitClassified_mainLog (st : OptState) (env : Env) (p : Nat) :
    ExitClassified env (mainLog st env p) := by
  unfold mainLog
  split
  · split
    · apply exitClassified_onError
    · split
      · apply exitClassified_onError
      · apply exitClassified_mainVerify
  · apply exitClassified_mainVerify

theorem exitClassified_mainPbs (st : OptState) (env : Env) :
    ExitClassified env (mainPbs st env) := by
  unfold mainPbs
  split
  · apply exitClassified_withTrace
    split
    · apply exitClassified_onError
    · split
      · apply exitClassified_withTrace
        apply exitClassified_mainLog
      · apply exitClassified_mainLog
  · apply exitClassified_mainLog

theorem exitClassified_mainZero (st : OptState) (env : Env) :
    ExitClassified env (mainZero st env) := by
  unfold mainZero
  apply exitClassified_withTrace
  split
  · apply exitClassified_onError
  · apply exitClassified_mainPbs

theorem exitClassified_mainFormat (st : OptState) (env : Env) :
    ExitClassified env (mainFormat st env) := by
  unfold mainFormat
  split
  · apply exitClassified_withTrace
    split
    · apply exitClassified_onError
    · apply exitClassified_withTrace
      apply exitClassified_mainZero
    · apply exitClassified_mainZero
  · apply exitClassified_mainZero

theorem exitClassified_mainCodepage (st : OptState) (env : Env) :
    ExitClassified env (mainCodepage st env) := by
  unfold mainCodepage
  split
  · apply exitClassified_withTrace
    split
    · apply exitClassified_onError
    · apply exitClassified_withTrace
      apply exitClassified_mainFormat
    · apply exitClassified_mainFormat
  · apply exitClassified_mainFormat

theorem exitClassified_mainOpen (st : OptState) (env : Env) :
    ExitClassified env (mainOpen st env) := by
  unfold mainOpen
  apply exitClassified_withTrace
  split
  · apply exitClassified_onError
  · apply exitClassified_withTrace
    split
    · apply exitClassified_mainFinish
    · split
      · apply exitClassified_onError
      · apply exitClassified_mainCodepage

theorem exitClassified_runMain (opts : List CmdOption) (env : Env)
    {st : OptState} {tr₀ : List Event}
    (hp : parseOptions opts {} [] = ParseResult.completed st tr₀) :
    ExitClassified env (runMain opts env) := by
  cases h0 : env.init_ok
  · rw [runMain_initFail opts env h0]
    exact exitClassified_of_none rfl rfl
  · by_cases h1 : env.number_of_filenames = 0
    · rw [runMain_noFiles opts env h0 hp h1]
      exact exitClassified_of_none rfl rfl
    · rw [runMain_go opts env h0 hp h1]
      exact exitClassified_withTrace (exitClassified_mainOpen st env)

/-! ### Preservation of the process-buffer-size field -/

theorem pbsFinal_mainFinish (env : Env) (s : ProcStatus) (p : Nat) :
    (mainFinish env s p).pbsFinal = p := by
  unfold mainFinish
  split
  · rfl
  · split
    · rfl
    · split
      · rfl
      · split
        · rfl
        · rfl

theorem pbsFinal_mainVerify (st : OptState) (env : Env) (p : Nat) :
    (mainVerify st env p).pbsFinal = p := by
  unfold mainVerify
  by_cases h1 : st.log_filename.isSome = true <;>
    by_cases h2 : env.log_close_ok = false <;>
    by_cases h3 : env.log_free_ok = false <;>
    simp [h1, h2, h3, onError, pbsFinal_mainFinish]

theorem pbsFinal_mainLog (st : OptState) (env : Env) (p : Nat) :
    (mainLog st env p).pbsFinal = p := by
  unfold mainLog
  by_cases h1 : st.log_filename.isSome = true <;>
    by_cases h2 : env.log_init_ok = false <;>
    by_cases h3 : env.log_open_ok = false <;>
    simp [h1, h2, h3, onError, pbsFinal_mainVerify]

/-! ### The final checks under successful cleanup -/

theorem mainFinish_aborted (env : Env) (s : ProcStatus) (p : Nat)
    (hc : env.handle_close_ok = true) (hf : env.handle_free_ok = true)
    (ha : (env.abort_after_open || env.abort_late) = true) :
    mainFinish env s p =
      { exitCode := EXIT_FAILURE, finalMessage := some FinalMsg.aborted
        status := s, pbsFinal := p
        trace := [Event.closeHandle, Event.freeHandle] } := by
  simp [mainFinish, hc, hf, ha]

theorem mainFinish_failure (env : Env) (s : ProcStatus) (p : Nat)
    (hc : env.handle_close_ok = true) (hf : env.handle_free_ok = true)
    (ha : (env.abort_after_open || env.abort_late) = false)
    (hs : s ≠ ProcStatus.completed) :
    mainFinish env s p =
      { exitCode := EXIT_FAILURE, finalMessage := some FinalMsg.failure
        status := s, pbsFinal := p
        trace := [Event.closeHandle, Event.freeHandle] } := by
  simp [mainFinish, hc, hf, ha, hs]

theorem mainFinish_success (env : Env) (s : ProcStatus) (p : Nat)
    (hc : env.handle_close_ok = true) (hf : env.handle_free_ok = true)
    (ha : (env.abort_after_open || env.abort_late) = false)
    (hs : s = ProcStatus.completed) :
    mainFinish env s p =
      { exitCode := EXIT_SUCCESS, finalMessage := some FinalMsg.success
        status := s, pbsFinal := p
        trace := [Event.closeHandle, Event.freeHandle] } := by
  simp [mainFinish, hc, hf, ha, hs]

/-! ### Superset characterisations of phase traces -/

theorem mem_mainVerify_trace {st : OptState} {env : Env} {p : Nat} {e : Event}
    (h : e ∈ (mainVerify st env p).trace) :
    e = Event.verifySingleFiles ∨ e = Event.verifyInput ∨
      e = Event.closeHandle ∨ e = Event.freeHandle := by
  unfold mainVerify at h
  rcases List.mem_cons.mp h with h2 | h2
  · by_cases h4 : env.input_format_files = true <;> simp [h4] at h2 <;> tauto
  · by_cases h1 : st.log_filename.isSome = true <;>
      by_cases hc : env.log_close_ok = false <;>
      by_cases hf : env.log_free_ok = false <;>
      simp only [h1, hc, hf, if_true, if_false, if_pos, if_neg,
        not_false_eq_true, not_true_eq_false] at h2 <;>
      first
        | (rcases mem_onError_trace h2 with h3 | h3 <;> tauto)
        | (rcases mem_mainFinish_trace h2 with h3 | h3 <;> tauto)

theorem mem_mainLog_trace {st : OptState} {env : Env} {p : Nat} {e : Event}
    (h : e ∈ (mainLog st env p).trace) :
    e = Event.verifySingleFiles ∨ e = Event.verifyInput ∨
      e = Event.closeHandle ∨ e = Event.freeHandle := by
  unfold mainLog at h
  by_cases h1 : st.log_filename.isSome = true <;>
    by_cases h2 : env.log_init_ok = false <;>
    by_cases h3 : env.log_open_ok = false <;>
    simp only [h1, h2, h3, if_true, if_false, if_pos, if_neg,
      not_false_eq_true, not_true_eq_false] at h <;>
    first
      | (rcases mem_onError_trace h with h4 | h4 <;> tauto)
      | exact mem_mainVerify_trace h

theorem setPbs_not_mem_mainLog (st : OptState) (env : Env) (p : Nat) :
    Event.setProcessBufferSize ∉ (mainLog st env p).trace := by
  intro h
  rcases mem_mainLog_trace h with h1 | h1 | h1 | h1 <;> exact Event.noConfusion h1

theorem setPbs_not_mem_mainZero (st : OptState) (env : Env)
    (hnone : st.option_process_buffer_size = none) :
    Event.setProcessBufferSize ∉ (mainZero st env).trace := by
  intro h
  unfold mainZero at h
  rcases List.mem_cons.mp h with h2 | h2
  · exact Event.noConfusion h2
  · by_cases h1 : env.set_zero_ok = false
    · simp only [h1, if_pos, if_true] at h2
      rcases mem_onError_trace h2 with h3 | h3 <;> exact Event.noConfusion h3
    · simp only [h1, if_neg, if_false, not_false_eq_true] at h2
      rw [mainPbs_none st env hnone] at h2
      exact setPbs_not_mem_mainLog st env env.pbs_initial h2

theorem setPbs_not_mem_mainFormat (st : OptState) (env : Env)
    (hnone : st.option_process_buffer_size = none) :
    Event.setProcessBufferSize ∉ (mainFormat st env).trace := by
  intro h
  cases hopt : st.option_format with
  | none =>
    rw [mainFormat_none st env hopt] at h
    exact setPbs_not_mem_mainZero st env hnone h
  | some v =>
    cases hres : env.format_result with
    | err =>
      rw [mainFormat_err st env hopt hres] at h
      simp at h
    | unsupported =>
      rw [mainFormat_unsupported st env hopt hres] at h
      rcases List.mem_cons.mp h with h2 | h2
      · exact Event.noConfusion h2
      · rcases List.mem_cons.mp h2 with h3 | h3
        · exact Event.noConfusion h3
        · exact setPbs_not_mem_mainZero st env hnone h3
    | ok =>
      rw [mainFormat_ok st env hopt hres] at h
      rcases List.mem_cons.mp h with h2 | h2
      · exact Event.noConfusion h2
      · exact setPbs_not_mem_mainZero st env hnone h2

theorem setPbs_not_mem_mainCodepage (st : OptState) (env : Env)
    (hnone : st.option_process_buffer_size = none) :
    Event.setProcessBufferSize ∉ (mainCodepage st env).trace := by
  intro h
  cases hopt : st.option_header_codepage with
  | none =>
    rw [mainCodepage_none st env hopt] at h
    exact setPbs_not_mem_mainFormat st env hnone h
  | some v =>
    cases hres : env.codepage_result with
    | err =>
      rw [mainCodepage_err st env hopt hres] at h
      simp at h
    | unsupported =>
      rw [mainCodepage_unsupported st env hopt hres] at h
      rcases List.mem_cons.mp h with h2 | h2
      · exact Event.noConfusion h2
      · rcases List.mem_cons.mp h2 with h3 | h3
        · exact Event.noConfusion h3
        · exact setPbs_not_mem_mainFormat st env hnone h3
    | ok =>
      rw [mainCodepage_ok st env hopt hres] at h
      rcases List.mem_cons.mp h with h2 | h2
      · exact Event.noConfusion h2
      · exact setPbs_not_mem_mainFormat st env hnone h2

theorem setPbs_not_mem_mainOpen (st : OptState) (env : Env)
    (hnone : st.option_process_buffer_size = none) :
    Event.setProcessBufferSize ∉ (mainOpen st env).trace := by
  intro h
  cases h1 : env.handle_init_ok with
  | false =>
    rw [mainOpen_initFail st env h1] at h
    simp at h
  | true =>
    cases h2 : env.abort_after_open with
    | true =>
      rw [mainOpen_abort st env h1 h2] at h
      rcases List.mem_cons.mp h with h3 | h3
      · exact Event.noConfusion h3
      · rcases List.mem_cons.mp h3 with h4 | h4
        · exact Event.noConfusion h4
        · rcases mem_mainFinish_trace h4 with h5 | h5 <;> exact Event.noConfusion h5
    | false =>
      cases h3 : env.open_ok with
      | false =>
        rw [mainOpen_openFail st env h1 h2 h3] at h
        simp at h
      | true =>
        rw [mainOpen_go st env h1 h2 h3] at h
        rcases List.mem_cons.mp h with h4 | h4
        · exact Event.noConfusion h4
        · rcases List.mem_cons.mp h4 with h5 | h5
          · exact Event.noConfusion h5
          · exact setPbs_not_mem_mainCodepage st env hnone h5

theorem setPbs_not_mem_runMain (opts : List CmdOption) (env : Env)
    {st : OptState} {tr₀ : List Event}
    (hp : parseOptions opts {} [] = ParseResult.completed st tr₀)
    (hnone : st.option_process_buffer_size = none) :
    Event.setProcessBufferSize ∉ (runMain opts env).trace := by
  intro h
  cases h0 : env.init_ok with
  | false =>
    rw [runMain_initFail opts env h0] at h
    simp at h
  | true =>
    by_cases h1 : env.number_of_filenames = 0
    · rw [runMain_noFiles opts env h0 hp h1] at h
      rcases List.mem_append.mp h with h2 | h2
      · exact absurd (parse_trace_only_warn hp _ h2) (by simp)
      · simp at h2
    · rw [runMain_go opts env h0 hp h1] at h
      rcases List.mem_append.mp h with h2 | h2
      · exact absurd (parse_trace_only_warn hp _ h2) (by simp)
      · exact setPbs_not_mem_mainOpen st env hnone h2

/-! ### Reduction through the setter stages -/

theorem mainCodepage_reduce (st : OptState) (env : Env)
    (hcp : CpOk st env) (hfmt : FmtOk st env) (hz : env.set_zero_ok = true) :
    ∃ pre, (mainCodepage st env).trace =
        pre ++ Event.setZeroChunkOnError st.zero_chunk_on_error
          :: (mainPbs st env).trace ∧
      (mainCodepage st env).pbsFinal = (mainPbs st env).pbsFinal ∧
      (mainCodepage st env).exitCode = (mainPbs st env).exitCode ∧
      (mainCodepage st env).finalMessage = (mainPbs st env).finalMessage := by
  have hzr := mainZero_ok st env hz
  have core : ∃ pre, (mainFormat st env).trace =
      pre ++ Event.setZeroChunkOnError st.zero_chunk_on_error
        :: (mainPbs st env).trace ∧
      (mainFormat st env).pbsFinal = (mainPbs st env).pbsFinal ∧
      (mainFormat st env).exitCode = (mainPbs st env).exitCode ∧
      (mainFormat st env).finalMessage = (mainPbs st env).finalMessage := by
    cases hopt2 : st.option_format with
    | none =>
      rw [mainFormat_none st env hopt2, hzr]
      exact ⟨[], by simp⟩
    | some v =>
      cases hres2 : env.format_result with
      | err => exact absurd hres2 (hfmt (by simp [hopt2]))
      | unsupported =>
        rw [mainFormat_unsupported st env hopt2 hres2, hzr]
        exact ⟨[Event.setFormat, Event.warnFormat], by simp⟩
      | ok =>
        rw [mainFormat_ok st env hopt2 hres2, hzr]
        exact ⟨[Event.setFormat], by simp⟩
  obtain ⟨pre, hpre⟩ := core
  cases hopt : st.option_header_codepage with
  | none =>
    rw [mainCodepage_none st env hopt]
    exact ⟨pre, hpre⟩
  | some v =>
    cases hres : env.codepage_result with
    | err => exact absurd hres (hcp (by simp [hopt]))
    | unsupported =>
      rw [mainCodepage_unsupported st env hopt hres]
      refine ⟨Event.setHeaderCodepage :: Event.warnCodepage :: pre, ?_⟩
      simp [hpre.1, hpre.2.1, hpre.2.2.1, hpre.2.2.2]
    | ok =>
      rw [mainCodepage_ok st env hopt hres]
      refine ⟨Event.setHeaderCodepage :: pre, ?_⟩
      simp [hpre.1, hpre.2.1, hpre.2.2.1, hpre.2.2.2]

theorem runMain_to_mainFinish (opts : List CmdOption) (env : Env)
    {st : OptState} {tr₀ : List Event}
    (hp : parseOptions opts {} [] = ParseResult.completed st tr₀)
    (hre : ReachesVerify st env)
    (hlog2 : st.log_filename.isSome = true →
      env.log_close_ok = true ∧ env.log_free_ok = true) :
    ∃ p, (runMain opts env).finalMessage =
        (mainFinish env
          (if env.verify_ok then ProcStatus.completed else ProcStatus.failed)
          p).finalMessage ∧
      (runMain opts env).exitCode =
        (mainFinish env
          (if env.verify_ok then ProcStatus.completed else ProcStatus.failed)
          p).exitCode := by
  obtain ⟨h0, h1, h2, h3, h4, hcp, hfmt, hz, hpbs, hlog⟩ := hre
  rw [runMain_go opts env h0 hp h1, mainOpen_go st env h2 h3 h4]
  obtain ⟨pre, hred⟩ := mainCodepage_reduce st env hcp hfmt hz
  have hfields : ∀ p2, (mainPbs st env).finalMessage = (mainLog st env p2).finalMessage ∧
      (mainPbs st env).exitCode = (mainLog st env p2).exitCode →
      ∃ p, (mainCodepage st env).finalMessage =
          (mainFinish env
            (if env.verify_ok then ProcStatus.completed else ProcStatus.failed)
            p).finalMessage ∧
        (mainCodepage st env).exitCode =
          (mainFinish env
            (if env.verify_ok then ProcStatus.completed else ProcStatus.failed)
            p).exitCode := by
    intro p2 hml
    refine ⟨p2, ?_, ?_⟩
    · rw [hred.2.2.2, hml.1, mainLog_go st env p2 hlog, mainVerify_go st env p2 hlog2]
    · rw [hred.2.2.1, hml.2, mainLog_go st env p2 hlog, mainVerify_go st env p2 hlog2]
  have main : ∃ p, (mainCodepage st env).finalMessage =
      (mainFinish env
        (if env.verify_ok then ProcStatus.completed else ProcStatus.failed)
        p).finalMessage ∧
      (mainCodepage st env).exitCode =
        (mainFinish env
          (if env.verify_ok then ProcStatus.completed else ProcStatus.failed)
          p).exitCode := by
    cases hopt : st.option_process_buffer_size with
    | none =>
      exact hfields env.pbs_initial (by rw [mainPbs_none st env hopt]; exact ⟨rfl, rfl⟩)
    | some v =>
      cases hres : env.pbs_result with
      | err => exact absurd hres (hpbs (by simp [hopt]))
      | unsupported =>
        exact hfields 0 (by rw [mainPbs_unsupported st env hopt hres]; exact ⟨rfl, rfl⟩)
      | ok =>
        by_cases hbig : env.pbs_after_set > SSIZE_MAX
        · exact hfields 0 (by rw [mainPbs_okBig st env hopt hres hbig]; exact ⟨rfl, rfl⟩)
        · exact hfields env.pbs_after_set
            (by rw [mainPbs_ok st env hopt hres hbig]; exact ⟨rfl, rfl⟩)
  obtain ⟨p, hm1, hm2⟩ := main
  exact ⟨p, hm1, hm2⟩

/-! ## The spec-modelled Verification Driver -/

theorem driveChunks_clean (chunks : List ChunkOutcome) :
    ∀ i, ChunkOutcome.truncated ∉ chunks → corruptCount chunks = 0 →
    driveChunks true i chunks =
      { status := RunStatus.completed, errors := []
        stream := zeroSubStream chunks } := by
  induction chunks with
  | nil => intro i _ _; rfl
  | cons c rest ih =>
    intro i hnt h0
    cases c with
    | valid d =>
      have h2 := ih (i + 1) (fun h => hnt (List.mem_cons_of_mem _ h))
        (by simpa [corruptCount] using h0)
      simp [driveChunks, h2, zeroSubStream]
    | corrupt d => simp [corruptCount] at h0
    | truncated => exact absurd (List.mem_cons_self _ _) hnt

theorem driveChunks_one_corrupt (chunks : List ChunkOutcome) :
    ∀ i, ChunkOutcome.truncated ∉ chunks → corruptCount chunks = 1 →
    driveChunks true i chunks =
      { status := RunStatus.completed
        errors := [firstCorruptIndex i chunks]
        stream := zeroSubStream chunks } := by
  induction chunks with
  | nil => intro i _ h1; simp [corruptCount] at h1
  | cons c rest ih =>
    intro i hnt h1
    cases c with
    | valid d =>
      have h2 := ih (i + 1) (fun h => hnt (List.mem_cons_of_mem _ h))
        (by simpa [corruptCount] using h1)
      simp [driveChunks, h2, zeroSubStream, firstCorruptIndex]
    | corrupt d =>
      have h0 : corruptCount rest = 0 := by
        simp [corruptCount] at h1
        omega
      have h2 := driveChunks_clean rest (i + 1)
        (fun h => hnt (List.mem_cons_of_mem _ h)) h0
      simp [driveChunks, h2, zeroSubStream, firstCorruptIndex]
    | truncated => exact absurd (List.mem_cons_self _ _) hnt

/-- C4: for every evidence set with exactly one checksum-corrupted chunk, no
truncation, and the zero-fill policy enabled, the Verification Driver
completes (`completed`, not `failed`), its error list has exactly one entry
naming that chunk's logical index, and the byte stream fed to the Digest
Pipeline — over which the black-box digests are computed — equals the
reference stream with that chunk's bytes replaced by zeros of the same
length, so the resulting digest equals the reference digest of the
zero-substituted stream. -/
theorem C4_zero_fill_single_corruption (chunks : List ChunkOutcome)
    (hnt : ChunkOutcome.truncated ∉ chunks)
    (h1 : corruptCount chunks = 1) :
    (driveChunks true 0 chunks).status = RunStatus.completed ∧
    (driveChunks true 0 chunks).errors = [firstCorruptIndex 0 chunks] ∧
    (driveChunks true 0 chunks).stream = zeroSubStream chunks := by
  rw [driveChunks_one_corrupt chunks 0 hnt h1]
  exact ⟨rfl, rfl, rfl⟩

theorem C4_zero_fill_single_corruption_witness :
    ChunkOutcome.truncated ∉
      [ChunkOutcome.valid [1, 2], ChunkOutcome.corrupt [3, 4],
        ChunkOutcome.valid [5]] ∧
    corruptCount [ChunkOutcome.valid [1, 2], ChunkOutcome.corrupt [3, 4],
      ChunkOutcome.valid [5]] = 1 ∧
    (driveChunks true 0 [ChunkOutcome.valid [1, 2], ChunkOutcome.corrupt [3, 4],
      ChunkOutcome.valid [5]]).status = RunStatus.completed ∧
    (driveChunks true 0 [ChunkOutcome.valid [1, 2], ChunkOutcome.corrupt [3, 4],
      ChunkOutcome.valid [5]]).errors = [1] ∧
    (driveChunks true 0 [ChunkOutcome.valid [1, 2], ChunkOutcome.corrupt [3, 4],
      ChunkOutcome.valid [5]]).stream = [1, 2, 0, 0, 5] := by
  have h := C4_zero_fill_single_corruption
    [ChunkOutcome.valid [1, 2], ChunkOutcome.corrupt [3, 4],
      ChunkOutcome.valid [5]] (by decide) (by decide)
  refine ⟨by decide, by decide, h.1, ?_, ?_⟩
  · rw [h.2.1]; decide
  · rw [h.2.2]; decide

/-! ## Claims about main -/

/-- C2: an open failure is fatal and no run is possible: for every execution
of `main` in which `verification_handle_open_input` does not return success
and the abort flag is not set, neither the media verification driver
(`verification_handle_verify_input`) nor the single-files driver
(`verification_handle_verify_single_files`) is invoked, and the program
terminates with failure status after releasing the handle (the close and
free of the verification handle appear in the trace after the open). -/
theorem C2_open_failure_fatal (opts : List CmdOption) (env : Env)
    (st : OptState) (tr₀ : List Event)
    (hp : parseOptions opts {} [] = ParseResult.completed st tr₀)
    (h0 : env.init_ok = true) (h1 : env.number_of_filenames ≠ 0)
    (h2 : env.handle_init_ok = true) (h3 : env.abort_after_open = false)
    (h4 : env.open_ok = false) :
    Event.verifyInput ∉ (runMain opts env).trace ∧
    Event.verifySingleFiles ∉ (runMain opts env).trace ∧
    (runMain opts env).exitCode = EXIT_FAILURE ∧
    (runMain opts env).finalMessage = none ∧
    (runMain opts env).trace = tr₀ ++
      [Event.initHandle st.calculate_md5 st.calculate_sha1 st.calculate_sha256,
        Event.openInput, Event.closeHandle, Event.freeHandle] := by
  have hrm := runMain_go opts env h0 hp h1
  rw [mainOpen_openFail st env h2 h3 h4] at hrm
  refine ⟨?_, ?_, ?_, ?_, ?_⟩
  · rw [verify_mem_runMain opts env hp Event.verifyInput (by simp [isVerifyEvent])]
    simp [h4]
  · rw [verify_mem_runMain opts env hp Event.verifySingleFiles
      (by simp [isVerifyEvent])]
    simp [h4]
  · rw [hrm]
  · rw [hrm]
  · rw [hrm]

theorem C2_open_failure_fatal_witness :
    Event.verifyInput ∉ (runMain [] { envAllOk with open_ok := false }).trace ∧
    (runMain [] { envAllOk with open_ok := false }).exitCode = EXIT_FAILURE ∧
    (runMain [] { envAllOk with open_ok := false }).finalMessage = none := by
  have h := C2_open_failure_fatal [] { envAllOk with open_ok := false }
    {} [] rfl rfl (by decide) rfl rfl rfl
  exact ⟨h.1, h.2.2.1, h.2.2.2.1⟩

/-- C9: invoked with no segment-file arguments remaining after the option
loop runs to completion, the program prints an error and the usage text and
exits with failure status without ever creating a verification handle or
opening any file. -/
theorem C9_missing_files (opts : List CmdOption) (env : Env)
    (st : OptState) (tr₀ : List Event)
    (hp : parseOptions opts {} [] = ParseResult.completed st tr₀)
    (h0 : env.init_ok = true) (h1 : env.number_of_filenames = 0) :
    (runMain opts env).exitCode = EXIT_FAILURE ∧
    (runMain opts env).finalMessage = none ∧
    Event.errMissingFiles ∈ (runMain opts env).trace ∧
    Event.printUsage ∈ (runMain opts env).trace ∧
    (∀ a b c, Event.initHandle a b c ∉ (runMain opts env).trace) ∧
    Event.openInput ∉ (runMain opts env).trace := by
  rw [runMain_noFiles opts env h0 hp h1]
  refine ⟨rfl, rfl, by simp, by simp, ?_, ?_⟩
  · intro a b c h
    rcases List.mem_append.mp h with h2 | h2
    · exact absurd (parse_trace_only_warn hp _ h2) (by simp)
    · simp at h2
  · intro h
    rcases List.mem_append.mp h with h2 | h2
    · exact absurd (parse_trace_only_warn hp _ h2) (by simp)
    · simp at h2

theorem C9_missing_files_witness :
    (runMain [] { envAllOk with number_of_filenames := 0 }).exitCode
      = EXIT_FAILURE ∧
    Event.errMissingFiles ∈
      (runMain [] { envAllOk with number_of_filenames := 0 }).trace ∧
    Event.openInput ∉
      (runMain [] { envAllOk with number_of_filenames := 0 }).trace := by
  have h := C9_missing_files [] { envAllOk with number_of_filenames := 0 }
    {} [] rfl rfl rfl
  exact ⟨h.1, h.2.2.1, h.2.2.2.2.2⟩

theorem mainOpen_trace_head (st : OptState) (env : Env) :
    ∃ l, (mainOpen st env).trace =
      Event.initHandle st.calculate_md5 st.calculate_sha1 st.calculate_sha256
        :: l :=
  ⟨_, rfl⟩

/-- C8: exactly one traversal mode runs per session: for every execution,
the single-files driver and the media driver are never both invoked; the
single-files driver is invoked only when the session's input format is the
FILES format and the media driver only when it is not; and every execution
that reaches the verification stage invokes the driver selected by the
input format. -/
theorem C8_one_driver (opts : List CmdOption) (env : Env) :
    ¬(Event.verifyInput ∈ (runMain opts env).trace ∧
      Event.verifySingleFiles ∈ (runMain opts env).trace) ∧
    (Event.verifySingleFiles ∈ (runMain opts env).trace →
      env.input_format_files = true) ∧
    (Event.verifyInput ∈ (runMain opts env).trace →
      env.input_format_files = false) ∧
    (∀ st tr₀, parseOptions opts {} [] = ParseResult.completed st tr₀ →
      ReachesVerify st env →
      verifyEventOf env ∈ (runMain opts env).trace) := by
  cases hp : parseOptions opts {} [] with
  | completed st tr₀ =>
    have hvi := verify_mem_runMain opts env hp
      Event.verifyInput (by simp [isVerifyEvent])
    have hvs := verify_mem_runMain opts env hp
      Event.verifySingleFiles (by simp [isVerifyEvent])
    refine ⟨?_, ?_, ?_, ?_⟩
    · rintro ⟨ha, hb⟩
      rw [hvi] at ha
      rw [hvs] at hb
      have h1 := ha.2.2.2.2.2.2
      have h2 := hb.2.2.2.2.2.2
      rw [← h1] at h2
      exact Event.noConfusion h2
    · intro h
      rw [hvs] at h
      have h2 := h.2.2.2.2.2.2
      unfold verifyEventOf at h2
      by_cases hf : env.input_format_files = true
      · exact hf
      · rw [if_neg hf] at h2
        exact Event.noConfusion h2
    · intro h
      rw [hvi] at h
      have h2 := h.2.2.2.2.2.2
      unfold verifyEventOf at h2
      by_cases hf : env.input_format_files = true
      · rw [if_pos hf] at h2
        exact Event.noConfusion h2
      · simpa using hf
    · intro st2 tr2 hp2 hre
      injection hp2 with hst htr
      subst hst
      obtain ⟨a1, a2, a3, a4, a5, a6⟩ := hre
      exact (verify_mem_runMain opts env hp (verifyEventOf env)
        (by unfold verifyEventOf
            by_cases hf : env.input_format_files = true <;>
              simp [hf, isVerifyEvent])).mpr ⟨a1, a2, a3, a4, a5, a6, rfl⟩
  | earlyExit c tr₀ =>
    have hnv : ∀ e : Event, isVerifyEvent e = true →
        e ∉ (runMain opts env).trace := by
      intro e he h
      cases h0 : env.init_ok with
      | false =>
        rw [runMain_initFail opts env h0] at h
        simp at h
      | true =>
        rw [runMain_earlyExit opts env h0 hp] at h
        rcases parseOptions_earlyExit_spec opts {} [] c tr₀ hp e h
          with h2 | h2 | h2 | h2
        · simp at h2
        · subst h2; simp [isVerifyEvent] at he
        · subst h2; simp [isVerifyEvent] at he
        · subst h2; simp [isVerifyEvent] at he
    refine ⟨?_, ?_, ?_, ?_⟩
    · rintro ⟨ha, -⟩
      exact hnv _ (by simp [isVerifyEvent]) ha
    · intro h
      exact absurd h (hnv _ (by simp [isVerifyEvent]))
    · intro h
      exact absurd h (hnv _ (by simp [isVerifyEvent]))
    · intro st2 tr2 hp2 _
      exact ParseResult.noConfusion hp2

theorem C8_one_driver_witness :
    verifyEventOf envAllOk ∈ (runMain [] envAllOk).trace ∧
    envAllOk.input_format_files = false := by
  have hre : ReachesVerify ({} : OptState) envAllOk := by
    refine ⟨rfl, by decide, rfl, rfl, rfl, ?_, ?_, rfl, ?_, ?_⟩ <;>
      exact fun h => absurd h (by decide)
  exact ⟨(C8_one_driver [] envAllOk).2.2.2 {} [] rfl hre, rfl⟩

/-- C3 counterexample: the claim says SHA-1 is enabled if and only if a
`-d sha1` option was given, but the code compares only the first four
characters of the argument: with `-d sha1x` the handle is initialised
with SHA-1 enabled although no `-d sha1` option was given. -/
theorem C3_counterexample :
    Event.initHandle true true false ∈
      (runMain [CmdOption.optD "sha1x"] envAllOk).trace ∧
    CmdOption.optD "sha1" ∉ [CmdOption.optD "sha1x"] := by
  constructor
  · decide
  · decide

/-- C3 (amended): MD5 is always computed and SHA-1/SHA-256 are optional:
for every invocation the verification handle is initialised with the MD5
digest enabled unconditionally, with SHA-1 enabled iff some `-d` option
value begins with `sha1` (only the first four characters are compared),
and with SHA-256 enabled iff some `-d` option value begins with `sha256`
(only the first six characters are compared, and only when the `sha1`
prefix test failed); no other digest algorithm can be enabled. -/
theorem C3_digest_selection (opts : List CmdOption) (env : Env)
    (st : OptState) (tr₀ : List Event)
    (hp : parseOptions opts {} [] = ParseResult.completed st tr₀) :
    st.calculate_md5 = true ∧
    st.calculate_sha1 = sha1Requested opts ∧
    st.calculate_sha256 = sha256Requested opts ∧
    (env.init_ok = true → env.number_of_filenames ≠ 0 →
      ∃ l, (runMain opts env).trace =
        tr₀ ++ Event.initHandle true (sha1Requested opts)
          (sha256Requested opts) :: l) := by
  have hs := parseOptions_completed_spec opts {} [] st tr₀ hp
  have hm : st.calculate_md5 = true := by simpa using hs.1
  have h1 : st.calculate_sha1 = sha1Requested opts := by simpa using hs.2.1
  have h2 : st.calculate_sha256 = sha256Requested opts := by
    simpa using hs.2.2.1
  refine ⟨hm, h1, h2, ?_⟩
  intro h0 hn
  rw [runMain_go opts env h0 hp hn]
  obtain ⟨l, hl⟩ := mainOpen_trace_head st env
  refine ⟨l, ?_⟩
  show tr₀ ++ (mainOpen st env).trace = _
  rw [hl, hm, h1, h2]

theorem C3_digest_selection_witness :
    ∃ l, (runMain [CmdOption.optD "sha256"] envAllOk).trace =
      [] ++ Event.initHandle true (sha1Requested [CmdOption.optD "sha256"])
        (sha256Requested [CmdOption.optD "sha256"]) :: l :=
  (C3_digest_selection [CmdOption.optD "sha256"] envAllOk
    { calculate_sha256 := true } [] rfl).2.2.2 rfl (by decide)

/-- C5 counterexample: the claim as stated requires every execution with
the abort flag set after the open to terminate reporting ABORTED, but when
the final `verification_handle_close` fails the program takes the
`on_error` path and exits with no status line at all. -/
theorem C5_counterexample :
    ({ envAllOk with abort_after_open := true, handle_close_ok := false } : Env).abort_after_open = true ∧
    (runMain [] { envAllOk with abort_after_open := true, handle_close_ok := false }).finalMessage = none ∧
    (runMain [] { envAllOk with abort_after_open := true, handle_close_ok := false }).finalMessage ≠ some FinalMsg.aborted := by
  refine ⟨rfl, ?_, ?_⟩ <;> decide

/-- C5 (amended): cancellation is forwarded and honoured at the earliest
boundary: the signal handler sets the process-wide abort flag and calls
`verification_handle_signal_abort` exactly when the global handle exists;
and for every execution in which the abort flag is set by the time
`verification_handle_open_input` returns, no verification driver is ever
invoked, the program never reports SUCCESS and always exits with failure
status, and it reports ABORTED whenever the final close and free of the
handle succeed. -/
theorem C5_abort_honoured :
    (∀ s : HandlerState,
      (ewfverify_signal_handler s).state.ewfverify_abort = true ∧
      (ewfverify_signal_handler s).signalAbortCalled = s.handle_exists) ∧
    (∀ (opts : List CmdOption) (env : Env) (st : OptState) (tr₀ : List Event),
      parseOptions opts {} [] = ParseResult.completed st tr₀ →
      env.abort_after_open = true →
      Event.verifyInput ∉ (runMain opts env).trace ∧
      Event.verifySingleFiles ∉ (runMain opts env).trace ∧
      (runMain opts env).finalMessage ≠ some FinalMsg.success ∧
      (runMain opts env).exitCode = EXIT_FAILURE ∧
      (env.init_ok = true → env.number_of_filenames ≠ 0 →
        env.handle_init_ok = true → env.handle_close_ok = true →
        env.handle_free_ok = true →
        (runMain opts env).finalMessage = some FinalMsg.aborted)) := by
  constructor
  · intro s
    exact ⟨rfl, rfl⟩
  · intro opts env st tr₀ hp habort
    have hcls := exitClassified_runMain opts env hp
    have hsuccess : (runMain opts env).finalMessage ≠ some FinalMsg.success := by
      intro h
      have h2 := (hcls.2.2.2 h).2.1
      rw [habort] at h2
      simp at h2
    refine ⟨?_, ?_, hsuccess, ?_, ?_⟩
    · rw [verify_mem_runMain opts env hp Event.verifyInput
        (by simp [isVerifyEvent])]
      simp [habort]
    · rw [verify_mem_runMain opts env hp Event.verifySingleFiles
        (by simp [isVerifyEvent])]
      simp [habort]
    · cases hm : (runMain opts env).finalMessage with
      | none => exact hcls.1 hm
      | some m =>
        cases m with
        | aborted => exact (hcls.2.1 hm).1
        | failure => exact (hcls.2.2.1 hm).1
        | success => exact absurd hm hsuccess
    · intro h0 h1 h2 hc hf
      rw [runMain_go opts env h0 hp h1, mainOpen_abort st env h2 habort,
        mainFinish_aborted env ProcStatus.initial env.pbs_initial hc hf
          (by rw [habort]; rfl)]

theorem C5_abort_honoured_witness :
    (ewfverify_signal_handler
      { ewfverify_abort := false, handle_exists := true }).state.ewfverify_abort
        = true ∧
    (ewfverify_signal_handler
      { ewfverify_abort := false, handle_exists := true }).signalAbortCalled
        = true ∧
    Event.verifyInput ∉
      (runMain [] { envAllOk with abort_after_open := true }).trace ∧
    (runMain [] { envAllOk with abort_after_open := true }).finalMessage
      = some FinalMsg.aborted := by
  have h := C5_abort_honoured
  have h2 := h.2 [] { envAllOk with abort_after_open := true } {} [] rfl rfl
  exact ⟨(h.1 { ewfverify_abort := false, handle_exists := true }).1,
    (h.1 { ewfverify_abort := false, handle_exists := true }).2,
    h2.1, h2.2.2.2.2 rfl (by decide) rfl rfl rfl⟩

/-- C6: the zero-chunk-on-error policy consumed from the CLI is faithfully
installed on the session before any verification runs: the policy boolean
is disabled by default and enabled exactly when `-w` is given, and in every
run in which a verification driver is invoked, the call to
`verification_handle_set_zero_chunk_on_error` with that value occurs
earlier in the trace than the driver invocation. -/
theorem C6_zero_chunk_policy (opts : List CmdOption) (env : Env)
    (st : OptState) (tr₀ : List Event)
    (hp : parseOptions opts {} [] = ParseResult.completed st tr₀) :
    st.zero_chunk_on_error = zeroChunkRequested opts ∧
    ((Event.verifyInput ∈ (runMain opts env).trace ∨
      Event.verifySingleFiles ∈ (runMain opts env).trace) →
      ∃ l1 l2, (runMain opts env).trace =
        l1 ++ Event.setZeroChunkOnError (zeroChunkRequested opts) :: l2 ∧
        (Event.verifyInput ∈ l2 ∨ Event.verifySingleFiles ∈ l2)) := by
  have hz : st.zero_chunk_on_error = zeroChunkRequested opts := by
    simpa using (parseOptions_completed_spec opts {} [] st tr₀ hp).2.2.2.1
  refine ⟨hz, ?_⟩
  intro hv
  have hcond : env.init_ok = true ∧ env.number_of_filenames ≠ 0 ∧
      env.handle_init_ok = true ∧ env.abort_after_open = false ∧
      env.open_ok = true ∧ SettersOk st env := by
    rcases hv with h | h
    · have h2 := (verify_mem_runMain opts env hp Event.verifyInput
        (by simp [isVerifyEvent])).mp h
      exact ⟨h2.1, h2.2.1, h2.2.2.1, h2.2.2.2.1, h2.2.2.2.2.1, h2.2.2.2.2.2.1⟩
    · have h2 := (verify_mem_runMain opts env hp Event.verifySingleFiles
        (by simp [isVerifyEvent])).mp h
      exact ⟨h2.1, h2.2.1, h2.2.2.1, h2.2.2.2.1, h2.2.2.2.2.1, h2.2.2.2.2.2.1⟩
  obtain ⟨h0, h1, h2, h3, h4, hcp, hfmt, hzok, hpbs, hlog⟩ := hcond
  obtain ⟨pre, hsplit⟩ := mainCodepage_reduce st env hcp hfmt hzok
  refine ⟨tr₀ ++ Event.initHandle st.calculate_md5 st.calculate_sha1
      st.calculate_sha256 :: Event.openInput :: pre,
    (mainPbs st env).trace, ?_, ?_⟩
  · rw [runMain_go opts env h0 hp h1, mainOpen_go st env h2 h3 h4]
    show tr₀ ++ (Event.initHandle _ _ _ :: Event.openInput
      :: (mainCodepage st env).trace) = _
    rw [hsplit.1, hz]
    simp
  · rcases hv with h | h
    · left
      refine (verify_mem_mainPbs st env (by simp [isVerifyEvent])).mpr
        ⟨hpbs, hlog, ?_⟩
      exact ((verify_mem_runMain opts env hp Event.verifyInput
        (by simp [isVerifyEvent])).mp h).2.2.2.2.2.2
    · right
      refine (verify_mem_mainPbs st env (by simp [isVerifyEvent])).mpr
        ⟨hpbs, hlog, ?_⟩
      exact ((verify_mem_runMain opts env hp Event.verifySingleFiles
        (by simp [isVerifyEvent])).mp h).2.2.2.2.2.2

theorem C6_zero_chunk_policy_witness :
    ∃ l1 l2, (runMain [CmdOption.optW] envAllOk).trace =
      l1 ++ Event.setZeroChunkOnError (zeroChunkRequested [CmdOption.optW])
        :: l2 ∧
      (Event.verifyInput ∈ l2 ∨ Event.verifySingleFiles ∈ l2) :=
  (C6_zero_chunk_policy [CmdOption.optW] envAllOk
    { zero_chunk_on_error := true } [] rfl).2 (Or.inl (by decide))

/-- C7: the process buffer size defaults to the container's native chunk
size when unset: with no `-p` option,
`verification_handle_set_process_buffer_size` is never called and the
handle's `process_buffer_size` field is left unchanged; when `-p` is given
and the setter reports an unsupported value (result `0`, which per the
spec's description covers a value that cannot be parsed) or the resulting
size exceeds `SSIZE_MAX`, the field is reset to `0` (meaning the
chunk-size default), a warning is emitted, and the run continues to the
verification stage rather than failing. -/
theorem C7_process_buffer_size (opts : List CmdOption) (env : Env)
    (st : OptState) (tr₀ : List Event)
    (hp : parseOptions opts {} [] = ParseResult.completed st tr₀) :
    (pbsGiven opts = false →
      st.option_process_buffer_size = none ∧
      Event.setProcessBufferSize ∉ (runMain opts env).trace ∧
      (ReachesVerify st env →
        (runMain opts env).pbsFinal = env.pbs_initial)) ∧
    (st.option_process_buffer_size.isSome = true →
      env.init_ok = true → env.number_of_filenames ≠ 0 →
      env.handle_init_ok = true → env.abort_after_open = false →
      env.open_ok = true → CpOk st env → FmtOk st env →
      env.set_zero_ok = true →
      (env.pbs_result = SetResult.unsupported ∨
        (env.pbs_result = SetResult.ok ∧ env.pbs_after_set > SSIZE_MAX)) →
      (runMain opts env).pbsFinal = 0 ∧
      Event.warnBufferSize ∈ (runMain opts env).trace ∧
      (LogOk st env → verifyEventOf env ∈ (runMain opts env).trace)) := by
  constructor
  · intro hng
    have hnone : st.option_process_buffer_size = none := by
      have hiso := (parseOptions_completed_spec opts {} [] st tr₀ hp).2.2.2.2.1
      cases hopt : st.option_process_buffer_size with
      | none => rfl
      | some v => rw [hopt] at hiso; simp [hng] at hiso
    refine ⟨hnone, setPbs_not_mem_runMain opts env hp hnone, ?_⟩
    intro hre
    obtain ⟨h0, h1, h2, h3, h4, hcp, hfmt, hz, hpbs, hlog⟩ := hre
    obtain ⟨pre, hred⟩ := mainCodepage_reduce st env hcp hfmt hz
    rw [runMain_go opts env h0 hp h1, mainOpen_go st env h2 h3 h4]
    show (mainCodepage st env).pbsFinal = env.pbs_initial
    rw [hred.2.1, mainPbs_none st env hnone, pbsFinal_mainLog]
  · intro hsome h0 h1 h2 h3 h4 hcp hfmt hz hcase
    obtain ⟨v, hv⟩ := Option.isSome_iff_exists.mp hsome
    obtain ⟨pre, hred⟩ := mainCodepage_reduce st env hcp hfmt hz
    have hpbs_eq : mainPbs st env =
        { mainLog st env 0 with trace := Event.setProcessBufferSize
            :: Event.warnBufferSize :: (mainLog st env 0).trace } := by
      rcases hcase with hcase | ⟨hok, hbig⟩
      · exact mainPbs_unsupported st env hv hcase
      · exact mainPbs_okBig st env hv hok hbig
    have hpbsok : PbsOk st env := by
      intro _
      rcases hcase with hcc | ⟨hcc, -⟩ <;> rw [hcc] <;> simp
    refine ⟨?_, ?_, ?_⟩
    · rw [runMain_go opts env h0 hp h1, mainOpen_go st env h2 h3 h4]
      show (mainCodepage st env).pbsFinal = 0
      rw [hred.2.1, hpbs_eq]
      exact pbsFinal_mainLog st env 0
    · rw [runMain_go opts env h0 hp h1, mainOpen_go st env h2 h3 h4]
      show Event.warnBufferSize ∈ tr₀ ++ (Event.initHandle _ _ _
        :: Event.openInput :: (mainCodepage st env).trace)
      rw [hred.1, hpbs_eq]
      simp
    · intro hlogok
      exact (verify_mem_runMain opts env hp (verifyEventOf env)
        (by unfold verifyEventOf
            by_cases hff : env.input_format_files = true <;>
              simp [hff, isVerifyEvent])).mpr
        ⟨h0, h1, h2, h3, h4, ⟨hcp, hfmt, hz, hpbsok, hlogok⟩, rfl⟩

theorem C7_process_buffer_size_witness :
    (runMain [CmdOption.optP "10x"]
      { envAllOk with pbs_result := SetResult.unsupported }).pbsFinal = 0 ∧
    Event.warnBufferSize ∈ (runMain [CmdOption.optP "10x"]
      { envAllOk with pbs_result := SetResult.unsupported }).trace ∧
    Event.verifyInput ∈ (runMain [CmdOption.optP "10x"]
      { envAllOk with pbs_result := SetResult.unsupported }).trace := by
  have h := (C7_process_buffer_size [CmdOption.optP "10x"]
    { envAllOk with pbs_result := SetResult.unsupported }
    { option_process_buffer_size := some "10x" } [] rfl).2
    rfl rfl (by decide) rfl rfl rfl
    (fun hh => absurd hh (by decide)) (fun hh => absurd hh (by decide)) rfl
    (Or.inl rfl)
  exact ⟨h.1, h.2.1, h.2.2 (fun hh => absurd hh (by decide))⟩

theorem sha1Requested_false (opts : List CmdOption)
    (h : ∀ s, CmdOption.optD s ∈ opts → strncmpEq "sha1" s = false) :
    sha1Requested opts = false := by
  induction opts with
  | nil => rfl
  | cons o rest ih =>
    cases o with
    | optD s =>
      simp only [sha1Requested]
      rw [h s (by simp), ih (fun s2 hs2 => h s2 (List.mem_cons_of_mem _ hs2))]
      rfl
    | optInvalid => exact ih fun s2 hs2 => h s2 (List.mem_cons_of_mem _ hs2)
    | optA s => exact ih fun s2 hs2 => h s2 (List.mem_cons_of_mem _ hs2)
    | optF s => exact ih fun s2 hs2 => h s2 (List.mem_cons_of_mem _ hs2)
    | optH => exact ih fun s2 hs2 => h s2 (List.mem_cons_of_mem _ hs2)
    | optL s => exact ih fun s2 hs2 => h s2 (List.mem_cons_of_mem _ hs2)
    | optP s => exact ih fun s2 hs2 => h s2 (List.mem_cons_of_mem _ hs2)
    | optQ => exact ih fun s2 hs2 => h s2 (List.mem_cons_of_mem _ hs2)
    | optVerbose => exact ih fun s2 hs2 => h s2 (List.mem_cons_of_mem _ hs2)
    | optVersion => exact ih fun s2 hs2 => h s2 (List.mem_cons_of_mem _ hs2)
    | optW => exact ih fun s2 hs2 => h s2 (List.mem_cons_of_mem _ hs2)

theorem sha256Requested_false (opts : List CmdOption)
    (h : ∀ s, CmdOption.optD s ∈ opts → strncmpEq "sha256" s = false) :
    sha256Requested opts = false := by
  induction opts with
  | nil => rfl
  | cons o rest ih =>
    cases o with
    | optD s =>
      simp only [sha256Requested]
      rw [h s (by simp), ih (fun s2 hs2 => h s2 (List.mem_cons_of_mem _ hs2))]
      simp
    | optInvalid => exact ih fun s2 hs2 => h s2 (List.mem_cons_of_mem _ hs2)
    | optA s => exact ih fun s2 hs2 => h s2 (List.mem_cons_of_mem _ hs2)
    | optF s => exact ih fun s2 hs2 => h s2 (List.mem_cons_of_mem _ hs2)
    | optH => exact ih fun s2 hs2 => h s2 (List.mem_cons_of_mem _ hs2)
    | optL s => exact ih fun s2 hs2 => h s2 (List.mem_cons_of_mem _ hs2)
    | optP s => exact ih fun s2 hs2 => h s2 (List.mem_cons_of_mem _ hs2)
    | optQ => exact ih fun s2 hs2 => h s2 (List.mem_cons_of_mem _ hs2)
    | optVerbose => exact ih fun s2 hs2 => h s2 (List.mem_cons_of_mem _ hs2)
    | optVersion => exact ih fun s2 hs2 => h s2 (List.mem_cons_of_mem _ hs2)
    | optW => exact ih fun s2 hs2 => h s2 (List.mem_cons_of_mem _ hs2)

theorem badDigestCount_pos (opts : List CmdOption)
    (hbad : ∀ s, CmdOption.optD s ∈ opts → strncmpEq "sha1" s = false ∧
      strncmpEq "sha256" s = false)
    (hd : dGiven opts = true) : badDigestCount opts ≠ 0 := by
  induction opts with
  | nil => simp [dGiven] at hd
  | cons o rest ih =>
    cases o with
    | optD s =>
      have h1 := hbad s (by simp)
      simp [badDigestCount, h1.1, h1.2]
    | optInvalid =>
      exact ih (fun s2 hs2 => hbad s2 (List.mem_cons_of_mem _ hs2)) hd
    | optA s =>
      exact ih (fun s2 hs2 => hbad s2 (List.mem_cons_of_mem _ hs2)) hd
    | optF s =>
      exact ih (fun s2 hs2 => hbad s2 (List.mem_cons_of_mem _ hs2)) hd
    | optH =>
      exact ih (fun s2 hs2 => hbad s2 (List.mem_cons_of_mem _ hs2)) hd
    | optL s =>
      exact ih (fun s2 hs2 => hbad s2 (List.mem_cons_of_mem _ hs2)) hd
    | optP s =>
      exact ih (fun s2 hs2 => hbad s2 (List.mem_cons_of_mem _ hs2)) hd
    | optQ =>
      exact ih (fun s2 hs2 => hbad s2 (List.mem_cons_of_mem _ hs2)) hd
    | optVerbose =>
      exact ih (fun s2 hs2 => hbad s2 (List.mem_cons_of_mem _ hs2)) hd
    | optVersion =>
      exact ih (fun s2 hs2 => hbad s2 (List.mem_cons_of_mem _ hs2)) hd
    | optW =>
      exact ih (fun s2 hs2 => hbad s2 (List.mem_cons_of_mem _ hs2)) hd

/-- C10: unsupported option values degrade to defaults instead of
terminating: an unrecognised `-d` digest type prints a warning and the run
proceeds with MD5 only; an unsupported header codepage (setter result 0)
warns — the setter leaves the ascii default — and the run continues; an
unsupported input format (result 0) warns — raw default — and continues;
a run whose setter stages all avoid a hard error still reaches the
verification driver; and a hard setter error (result -1, here for the
header codepage) aborts the program with failure status, no final status
line, and no driver invocation. -/
theorem C10_degrade_to_defaults (opts : List CmdOption) (env : Env)
    (st : OptState) (tr₀ : List Event)
    (hp : parseOptions opts {} [] = ParseResult.completed st tr₀) :
    ((∀ s, CmdOption.optD s ∈ opts → strncmpEq "sha1" s = false ∧
        strncmpEq "sha256" s = false) →
      st.calculate_md5 = true ∧ st.calculate_sha1 = false ∧
      st.calculate_sha256 = false ∧
      (dGiven opts = true → Event.warnUnsupportedDigestType ∈ tr₀)) ∧
    (∀ v, st.option_header_codepage = some v →
      env.codepage_result = SetResult.unsupported →
      env.init_ok = true → env.number_of_filenames ≠ 0 →
      env.handle_init_ok = true → env.abort_after_open = false →
      env.open_ok = true →
      Event.warnCodepage ∈ (runMain opts env).trace) ∧
    (∀ v, st.option_format = some v →
      env.format_result = SetResult.unsupported →
      env.init_ok = true → env.number_of_filenames ≠ 0 →
      env.handle_init_ok = true → env.abort_after_open = false →
      env.open_ok = true → CpOk st env →
      Event.warnFormat ∈ (runMain opts env).trace) ∧
    (SettersOk st env → env.init_ok = true → env.number_of_filenames ≠ 0 →
      env.handle_init_ok = true → env.abort_after_open = false →
      env.open_ok = true → verifyEventOf env ∈ (runMain opts env).trace) ∧
    (∀ v, st.option_header_codepage = some v →
      env.codepage_result = SetResult.err →
      env.init_ok = true → env.number_of_filenames ≠ 0 →
      env.handle_init_ok = true → env.abort_after_open = false →
      env.open_ok = true →
      (runMain opts env).exitCode = EXIT_FAILURE ∧
      (runMain opts env).finalMessage = none ∧
      verifyEventOf env ∉ (runMain opts env).trace) := by
  have hspec := parseOptions_completed_spec opts {} [] st tr₀ hp
  refine ⟨?_, ?_, ?_, ?_, ?_⟩
  · intro hbad
    refine ⟨by simpa using hspec.1, ?_, ?_, ?_⟩
    · rw [show st.calculate_sha1 = sha1Requested opts by simpa using hspec.2.1]
      exact sha1Requested_false opts (fun s hs => (hbad s hs).1)
    · rw [show st.calculate_sha256 = sha256Requested opts by
        simpa using hspec.2.2.1]
      exact sha256Requested_false opts (fun s hs => (hbad s hs).2)
    · intro hd
      have hpos := badDigestCount_pos opts hbad hd
      rw [show tr₀ = [] ++ List.replicate (badDigestCount opts)
        Event.warnUnsupportedDigestType from hspec.2.2.2.2.2]
      simp [List.mem_replicate, hpos]
  · intro v hv hres h0 h1 h2 h3 h4
    rw [runMain_go opts env h0 hp h1, mainOpen_go st env h2 h3 h4,
      mainCodepage_unsupported st env hv hres]
    simp
  · intro v hv hres h0 h1 h2 h3 h4 hcp
    have hmem : Event.warnFormat ∈ (mainFormat st env).trace := by
      rw [mainFormat_unsupported st env hv hres]
      simp
    have hmem2 : Event.warnFormat ∈ (mainCodepage st env).trace := by
      cases hcv : st.option_header_codepage with
      | none => rw [mainCodepage_none st env hcv]; exact hmem
      | some c =>
        cases hcr : env.codepage_result with
        | err => exact absurd hcr (hcp (by simp [hcv]))
        | unsupported =>
          rw [mainCodepage_unsupported st env hcv hcr]
          simp [hmem]
        | ok =>
          rw [mainCodepage_ok st env hcv hcr]
          simp [hmem]
    rw [runMain_go opts env h0 hp h1, mainOpen_go st env h2 h3 h4]
    simp [hmem2]
  · intro hset h0 h1 h2 h3 h4
    exact (verify_mem_runMain opts env hp (verifyEventOf env)
      (by unfold verifyEventOf
          by_cases hff : env.input_format_files = true <;>
            simp [hff, isVerifyEvent])).mpr ⟨h0, h1, h2, h3, h4, hset, rfl⟩
  · intro v hv hres h0 h1 h2 h3 h4
    have hcd := mainCodepage_err st env hv hres
    refine ⟨?_, ?_, ?_⟩
    · rw [runMain_go opts env h0 hp h1, mainOpen_go st env h2 h3 h4]
      show (mainCodepage st env).exitCode = EXIT_FAILURE
      rw [hcd]
    · rw [runMain_go opts env h0 hp h1, mainOpen_go st env h2 h3 h4]
      show (mainCodepage st env).finalMessage = none
      rw [hcd]
    · intro h
      have h2 := (verify_mem_runMain opts env hp (verifyEventOf env)
        (by unfold verifyEventOf
            by_cases hff : env.input_format_files = true <;>
              simp [hff, isVerifyEvent])).mp h
      exact absurd (h2.2.2.2.2.2.1.1 (by simp [hv])) (by simp [hres])

theorem C10_degrade_to_defaults_witness :
    Event.warnUnsupportedDigestType ∈ (runMain
      [CmdOption.optD "md4", CmdOption.optA "x", CmdOption.optF "y"]
      { envAllOk with codepage_result := SetResult.unsupported, format_result := SetResult.unsupported }).trace ∧
    Event.warnCodepage ∈ (runMain
      [CmdOption.optD "md4", CmdOption.optA "x", CmdOption.optF "y"]
      { envAllOk with codepage_result := SetResult.unsupported, format_result := SetResult.unsupported }).trace ∧
    Event.warnFormat ∈ (runMain
      [CmdOption.optD "md4", CmdOption.optA "x", CmdOption.optF "y"]
      { envAllOk with codepage_result := SetResult.unsupported, format_result := SetResult.unsupported }).trace := by
  have hbad : ∀ s, CmdOption.optD s ∈
      [CmdOption.optD "md4", CmdOption.optA "x", CmdOption.optF "y"] →
      strncmpEq "sha1" s = false ∧ strncmpEq "sha256" s = false := by
    intro s hs
    simp at hs
    subst hs
    exact ⟨by decide, by decide⟩
  have h := C10_degrade_to_defaults
    [CmdOption.optD "md4", CmdOption.optA "x", CmdOption.optF "y"]
    { envAllOk with codepage_result := SetResult.unsupported, format_result := SetResult.unsupported }
    { option_header_codepage := some "x", option_format := some "y" }
    [Event.warnUnsupportedDigestType] rfl
  refine ⟨?_, ?_, ?_⟩
  · have hw := (h.1 hbad).2.2.2 rfl
    have htr := runMain_go
      [CmdOption.optD "md4", CmdOption.optA "x", CmdOption.optF "y"]
      { envAllOk with codepage_result := SetResult.unsupported, format_result := SetResult.unsupported }
      rfl rfl (by decide)
    rw [htr]
    simp [hw]
  · exact h.2.1 "x" rfl rfl rfl (by decide) rfl rfl rfl
  · exact h.2.2.1 "y" rfl rfl rfl (by decide) rfl rfl rfl
      (fun hh => by decide)

/-- C1 counterexample: the claim says an aborted run returns a failure
status distinct from the failed case, but a run aborted after the open and
a run whose verification failed return the same numeric exit status
`EXIT_FAILURE`; only the printed lines (ABORTED versus FAILURE)
distinguish them. -/
theorem C1_counterexample :
    (runMain [] { envAllOk with abort_after_open := true }).finalMessage
      = some FinalMsg.aborted ∧
    (runMain [] { envAllOk with verify_ok := false }).finalMessage
      = some FinalMsg.failure ∧
    (runMain [] { envAllOk with abort_after_open := true }).exitCode
      = (runMain [] { envAllOk with verify_ok := false }).exitCode := by
  refine ⟨?_, ?_, ?_⟩ <;> decide

/-- C1 (amended): the three terminal outcomes are mapped to exit behaviour
as follows, for every execution whose option loop runs to completion: a
printed ABORTED line comes with `EXIT_FAILURE` and the abort flag set; a
printed FAILURE line with `EXIT_FAILURE`, the abort flag clear and a
not-completed status; a printed SUCCESS line with `EXIT_SUCCESS`, the
abort flag clear and a completed status; an execution that prints no
status line (an `on_error` path) returns `EXIT_FAILURE`.  When the abort
flag is set after the open and the final cleanup succeeds the program
prints ABORTED and returns `EXIT_FAILURE`; when a run reaches the
verification stage with successful cleanup, a driver result other than 1
yields FAILURE with `EXIT_FAILURE` and a result of 1 yields SUCCESS with
`EXIT_SUCCESS`.  The three outcomes remain distinguishable only through
the printed line: ABORTED and FAILURE share the numeric `EXIT_FAILURE`. -/
theorem C1_exit_status_mapping (opts : List CmdOption) (env : Env)
    (st : OptState) (tr₀ : List Event)
    (hp : parseOptions opts {} [] = ParseResult.completed st tr₀) :
    ExitClassified env (runMain opts env) ∧
    (env.init_ok = true → env.number_of_filenames ≠ 0 →
      env.handle_init_ok = true → env.abort_after_open = true →
      env.handle_close_ok = true → env.handle_free_ok = true →
      (runMain opts env).finalMessage = some FinalMsg.aborted ∧
      (runMain opts env).exitCode = EXIT_FAILURE) ∧
    (ReachesVerify st env →
      (st.log_filename.isSome = true →
        env.log_close_ok = true ∧ env.log_free_ok = true) →
      env.handle_close_ok = true → env.handle_free_ok = true →
      env.abort_late = false →
      ((env.verify_ok = false →
        (runMain opts env).finalMessage = some FinalMsg.failure ∧
        (runMain opts env).exitCode = EXIT_FAILURE) ∧
       (env.verify_ok = true →
        (runMain opts env).finalMessage = some FinalMsg.success ∧
        (runMain opts env).exitCode = EXIT_SUCCESS))) := by
  refine ⟨exitClassified_runMain opts env hp, ?_, ?_⟩
  · intro h0 h1 h2 hab hc hf
    rw [runMain_go opts env h0 hp h1, mainOpen_abort st env h2 hab,
      mainFinish_aborted env ProcStatus.initial env.pbs_initial hc hf
        (by rw [hab]; rfl)]
    exact ⟨rfl, rfl⟩
  · intro hre hlog2 hc hf hlate
    obtain ⟨p, hm, he⟩ := runMain_to_mainFinish opts env hp hre hlog2
    have ha : (env.abort_after_open || env.abort_late) = false := by
      rw [hre.2.2.2.1, hlate]
      rfl
    constructor
    · intro hv
      rw [hm, he, mainFinish_failure env _ p hc hf ha (by simp [hv])]
      exact ⟨rfl, rfl⟩
    · intro hv
      rw [hm, he, mainFinish_success env _ p hc hf ha (by simp [hv])]
      exact ⟨rfl, rfl⟩

theorem C1_exit_status_mapping_witness :
    (runMain [] envAllOk).finalMessage = some FinalMsg.success ∧
    (runMain [] envAllOk).exitCode = EXIT_SUCCESS := by
  have hre : ReachesVerify ({} : OptState) envAllOk := by
    refine ⟨rfl, by decide, rfl, rfl, rfl, ?_, ?_, rfl, ?_, ?_⟩ <;>
      exact fun h => absurd h (by decide)
  exact ((C1_exit_status_mapping [] envAllOk {} [] rfl).2.2 hre
    (fun h => absurd h (by decide)) rfl rfl rfl).2 rfl

end Ewfverify
